import Mathlib

/-!
# CloudMatcher: registration orchestration

Shallow embedding of
`include/dynamic_robot_localization/cloud_matchers/impl/cloud_matcher.hpp`.

The C++ class `CloudMatcher<PointT>` wraps an external registration algorithm
(`pcl::Registration`), an optional `RegistrationVisualizer` and an optional
cloud publisher.  The external types are kept abstract:

* `Cloud` stands for `pcl::PointCloud<PointT>`, first as a value; the section on
  shared cloud objects gives `registerCloud` on addresses, where two arguments
  may designate the same object, and relates it to the function on values,
* `Mat`   stands for the `Eigen::Matrix4f` returned by `getFinalTransformation`,
* `Pose`  stands for `tf2::Transform` with its `operator*`,
* `S`     stands for whatever further internal state the algorithm keeps.

`double` parameters are only stored and forwarded, never computed with; they are
carried as rationals.  `int` parameters are carried as integers.  Every mutating
call on a collaborator is recorded as an `Event`; `ROS_DEBUG_STREAM` logging is
not recorded.
-/

namespace dynamic_robot_localization

/-! ## External collaborators -/

/-- Search index `pcl::search::KdTree<PointT>`: the cloud it has been built over
(`none` until `setInputCloud` is called). -/
structure KdTree (Cloud : Type) where
  input_ : Option Cloud
deriving DecidableEq

/-- Constructor `new pcl::search::KdTree<PointT>()`. -/
def KdTree.new {Cloud : Type} : KdTree Cloud := { input_ := none }

/-- Method `KdTree::setInputCloud`. -/
def KdTree.setInputCloud {Cloud : Type} (t : KdTree Cloud) (cloud : Cloud) : KdTree Cloud :=
  { t with input_ := some cloud }

/-- Settings and results held by a `pcl::Registration` instance, as far as they
are reachable through the member functions that `CloudMatcher` calls. -/
structure Registration (Cloud Mat S : Type) where
  max_correspondence_distance : ℚ
  transformation_epsilon : ℚ
  euclidean_fitness_epsilon : ℚ
  maximum_iterations : Int
  ransac_iterations : Int
  ransac_outlier_rejection_threshold : ℚ
  input_target : Option Cloud
  search_method_target : Option (KdTree Cloud)
  search_method_source : Option (KdTree Cloud)
  input_source : Option Cloud
  /-- set once a visualizer has registered itself on the algorithm
  (`RegistrationVisualizer::setRegistration` takes the algorithm by reference) -/
  visualization_callback : Bool
  converged : Bool
  final_transformation : Mat
  internal : S
deriving DecidableEq

namespace Registration

variable {Cloud Mat S : Type}

def setMaxCorrespondenceDistance (r : Registration Cloud Mat S) (v : ℚ) : Registration Cloud Mat S :=
  { r with max_correspondence_distance := v }

def setTransformationEpsilon (r : Registration Cloud Mat S) (v : ℚ) : Registration Cloud Mat S :=
  { r with transformation_epsilon := v }

def setEuclideanFitnessEpsilon (r : Registration Cloud Mat S) (v : ℚ) : Registration Cloud Mat S :=
  { r with euclidean_fitness_epsilon := v }

def setMaximumIterations (r : Registration Cloud Mat S) (n : Int) : Registration Cloud Mat S :=
  { r with maximum_iterations := n }

def setRANSACIterations (r : Registration Cloud Mat S) (n : Int) : Registration Cloud Mat S :=
  { r with ransac_iterations := n }

def setRANSACOutlierRejectionThreshold (r : Registration Cloud Mat S) (v : ℚ) :
    Registration Cloud Mat S :=
  { r with ransac_outlier_rejection_threshold := v }

def setInputTarget (r : Registration Cloud Mat S) (cloud : Cloud) : Registration Cloud Mat S :=
  { r with input_target := some cloud }

def setSearchMethodTarget (r : Registration Cloud Mat S) (tree : KdTree Cloud) :
    Registration Cloud Mat S :=
  { r with search_method_target := some tree }

def setSearchMethodSource (r : Registration Cloud Mat S) (tree : KdTree Cloud) :
    Registration Cloud Mat S :=
  { r with search_method_source := some tree }

def setInputSource (r : Registration Cloud Mat S) (cloud : Cloud) : Registration Cloud Mat S :=
  { r with input_source := some cloud }

def hasConverged (r : Registration Cloud Mat S) : Bool := r.converged

def getFinalTransformation (r : Registration Cloud Mat S) : Mat := r.final_transformation

end Registration

/-- What one run of `pcl::Registration::align(output)` produces: the cloud it
leaves in the caller's output buffer, the convergence flag, the final
transformation and the algorithm's further internal state. -/
structure AlignResult (Cloud Mat S : Type) where
  output : Cloud
  converged : Bool
  final_transformation : Mat
  internal : S
deriving DecidableEq

/-- External operations used by `registerCloud`.
`align` receives the algorithm as configured at the moment of the call and the
current content of the output buffer. -/
structure External (Cloud Mat Pose S : Type) where
  align : Registration Cloud Mat S → Cloud → AlignResult Cloud Mat S
  /-- conversion `laserscan_to_pointcloud::tf_rosmsg_eigen_conversions::transformMatrixToTF2` -/
  transformMatrixToTF2 : Mat → Pose
  /-- function `pcl::transformPointCloud(cloud_in, cloud_out, transform)`, as the value left in `cloud_out` -/
  transformPointCloud : Cloud → Mat → Cloud

/-- Method `cloud_matcher_->align(output)`: stores the outcome in the algorithm
and returns the new content of the output buffer. -/
def Registration.align {Cloud Mat Pose S : Type} (ext : External Cloud Mat Pose S)
    (r : Registration Cloud Mat S) (output : Cloud) : Registration Cloud Mat S × Cloud :=
  let res := ext.align r output
  ({ r with converged := res.converged,
            final_transformation := res.final_transformation,
            internal := res.internal },
   res.output)

/-- State of a `RegistrationVisualizer`. -/
structure RegistrationVisualizer where
  maximum_displayed_correspondences : Int
  registration_set : Bool
  display_started : Bool
deriving DecidableEq

namespace RegistrationVisualizer

/-- Constructor `new RegistrationVisualizer<PointT, PointT>()`. -/
def new : RegistrationVisualizer :=
  { maximum_displayed_correspondences := 0, registration_set := false, display_started := false }

def setMaximumDisplayedCorrespondences (v : RegistrationVisualizer) (n : Int) :
    RegistrationVisualizer :=
  { v with maximum_displayed_correspondences := n }

/-- Method `setRegistration(registration)`: binds the visualizer to the algorithm
and registers its update callback on it. -/
def setRegistration {Cloud Mat S : Type} (v : RegistrationVisualizer)
    (r : Registration Cloud Mat S) : RegistrationVisualizer × Registration Cloud Mat S :=
  ({ v with registration_set := true }, { r with visualization_callback := true })

def startDisplay (v : RegistrationVisualizer) : RegistrationVisualizer :=
  { v with display_started := true }

end RegistrationVisualizer

/-- Parameter server seen through a `ros::NodeHandle`: the stored value of each
named parameter, by type, when there is one. -/
structure NodeHandle where
  bools : String → Option Bool
  ints : String → Option Int
  doubles : String → Option ℚ

namespace NodeHandle

/-- Overload `param(name, bool&, default)`: the stored value, or the default. -/
def paramBool (nh : NodeHandle) (name : String) (default_val : Bool) : Bool :=
  (nh.bools name).getD default_val

/-- Overload `param(name, int&, default)`. -/
def paramInt (nh : NodeHandle) (name : String) (default_val : Int) : Int :=
  (nh.ints name).getD default_val

/-- Overload `param(name, double&, default)`. -/
def paramDouble (nh : NodeHandle) (name : String) (default_val : ℚ) : ℚ :=
  (nh.doubles name).getD default_val

end NodeHandle

/-- Mutating calls made on the collaborators, in program order. -/
inductive Event (Cloud Mat S : Type) where
  | setMaxCorrespondenceDistance (v : ℚ)
  | setTransformationEpsilon (v : ℚ)
  | setEuclideanFitnessEpsilon (v : ℚ)
  | setMaximumIterations (n : Int)
  | setRANSACIterations (n : Int)
  | setRANSACOutlierRejectionThreshold (v : ℚ)
  | setInputTarget (cloud : Cloud)
  | setSearchMethodTarget (tree : KdTree Cloud)
  | kdTreeSetInputCloud (cloud : Cloud)
  | setSearchMethodSource (tree : KdTree Cloud)
  | setInputSource (cloud : Cloud)
  | newRegistrationVisualizer
  | setMaximumDisplayedCorrespondences (n : Int)
  | setRegistration
  | startDisplay
  | align (algorithm : Registration Cloud Mat S) (output : Cloud)
  | publishPointCloud (cloud : Cloud)
deriving DecidableEq

namespace Event

variable {Cloud Mat S : Type}

/-- Calls on the visualizer (construction included). -/
def isVisualizer : Event Cloud Mat S → Bool
  | newRegistrationVisualizer => true
  | setMaximumDisplayedCorrespondences _ => true
  | setRegistration => true
  | startDisplay => true
  | _ => false

/-- Calls on the cloud publisher. -/
def isPublish : Event Cloud Mat S → Bool
  | publishPointCloud _ => true
  | _ => false

/-- Calls of `align`. -/
def isAlign : Event Cloud Mat S → Bool
  | align _ _ => true
  | _ => false

end Event

/-! ## The class `CloudMatcher` -/

/-- Data members of `CloudMatcher<PointT>`.  The three pointers are `none` /
`false` when null. -/
structure CloudMatcher (Cloud Mat S : Type) where
  cloud_matcher_ : Option (Registration Cloud Mat S)
  /-- whether `cloud_publisher_` is non-null -/
  cloud_publisher_ : Bool
  match_only_keypoints_ : Bool
  display_cloud_aligment_ : Bool
  number_maximum_displayed_correspondences_ : Int
  registration_visualizer_ : Option RegistrationVisualizer
deriving DecidableEq

/-- Result of `registerCloud`: the returned `bool`, the two in/out arguments
after the call, the object after the call and the calls made. -/
structure RegisterResult (Cloud Mat Pose S : Type) where
  success : Bool
  pointcloud_pose_in_out : Pose
  pointcloud_registered_out : Cloud
  matcher : CloudMatcher Cloud Mat S
  events : List (Event Cloud Mat S)

namespace CloudMatcher

variable {Cloud Mat Pose S : Type}

/-- Constructor `CloudMatcher()` (lines 19-23); the smart pointers start null. -/
def new : CloudMatcher Cloud Mat S :=
  { cloud_matcher_ := none,
    cloud_publisher_ := false,
    match_only_keypoints_ := false,
    display_cloud_aligment_ := false,
    number_maximum_displayed_correspondences_ := 30,
    registration_visualizer_ := none }

/-- Method `setupConfigurationFromParameterServer` (lines 27-56). -/
def setupConfigurationFromParameterServer (m : CloudMatcher Cloud Mat S)
    (_node_handle private_node_handle : NodeHandle) :
    CloudMatcher Cloud Mat S × List (Event Cloud Mat S) :=
  let m1 : CloudMatcher Cloud Mat S :=
    { m with
      match_only_keypoints_ := private_node_handle.paramBool "match_only_keypoints" false,
      display_cloud_aligment_ := private_node_handle.paramBool "display_cloud_aligment" false,
      number_maximum_displayed_correspondences_ :=
        private_node_handle.paramInt "number_maximum_displayed_correspondences" 30 }
  match m1.cloud_matcher_ with
  | some r =>
    let max_correspondence_distance :=
      private_node_handle.paramDouble "max_correspondence_distance" 1.0
    let transformation_epsilon :=
      private_node_handle.paramDouble "transformation_epsilon" 1e-8
    let euclidean_fitness_epsilon :=
      private_node_handle.paramDouble "euclidean_fitness_epsilon" 1e-6
    let max_number_of_registration_iterations :=
      private_node_handle.paramInt "max_number_of_registration_iterations" 500
    let max_number_of_ransac_iterations :=
      private_node_handle.paramInt "max_number_of_ransac_iterations" 500
    let ransac_outlier_rejection_threshold :=
      private_node_handle.paramDouble "ransac_outlier_rejection_threshold" 0.05
    let r := r.setMaxCorrespondenceDistance max_correspondence_distance
    let r := r.setTransformationEpsilon transformation_epsilon
    let r := r.setEuclideanFitnessEpsilon euclidean_fitness_epsilon
    let r := r.setMaximumIterations max_number_of_registration_iterations
    let r := r.setRANSACIterations max_number_of_ransac_iterations
    let r := r.setRANSACOutlierRejectionThreshold ransac_outlier_rejection_threshold
    ({ m1 with cloud_matcher_ := some r },
     [Event.setMaxCorrespondenceDistance max_correspondence_distance,
      Event.setTransformationEpsilon transformation_epsilon,
      Event.setEuclideanFitnessEpsilon euclidean_fitness_epsilon,
      Event.setMaximumIterations max_number_of_registration_iterations,
      Event.setRANSACIterations max_number_of_ransac_iterations,
      Event.setRANSACOutlierRejectionThreshold ransac_outlier_rejection_threshold])
  | none => (m1, [])

/-- Method `setupReferenceCloud` (lines 59-66). -/
def setupReferenceCloud (m : CloudMatcher Cloud Mat S) (reference_cloud : Cloud)
    (search_method : KdTree Cloud) : CloudMatcher Cloud Mat S × List (Event Cloud Mat S) :=
  match m.cloud_matcher_ with
  | some r =>
    let r := r.setInputTarget reference_cloud
    let r := r.setSearchMethodTarget search_method
    ({ m with cloud_matcher_ := some r },
     [Event.setInputTarget reference_cloud, Event.setSearchMethodTarget search_method])
  | none => (m, [])

/-- Method `setDisplayCloudAligment` (lines 117-120). -/
def setDisplayCloudAligment (m : CloudMatcher Cloud Mat S) (display_cloud_aligment : Bool) :
    CloudMatcher Cloud Mat S :=
  { m with display_cloud_aligment_ := display_cloud_aligment }

/-- Method `updateRegistrationVisualizer` (lines 123-133). -/
def updateRegistrationVisualizer (m : CloudMatcher Cloud Mat S) :
    CloudMatcher Cloud Mat S × List (Event Cloud Mat S) :=
  match m.cloud_matcher_, m.registration_visualizer_, m.display_cloud_aligment_ with
  | some r, none, true =>
    let v := RegistrationVisualizer.new
    let v := v.setMaximumDisplayedCorrespondences m.number_maximum_displayed_correspondences_
    let (v, r) := v.setRegistration r
    let v := v.startDisplay
    ({ m with registration_visualizer_ := some v, cloud_matcher_ := some r },
     [Event.newRegistrationVisualizer,
      Event.setMaximumDisplayedCorrespondences m.number_maximum_displayed_correspondences_,
      Event.setRegistration,
      Event.startDisplay])
  | _, _, _ => (m, [])

/-- Modelled from the spec: the hook `processKeypoints`, called at line 90, is a
virtual member declared in `cloud_matcher.h`, which is not among the sources.
The specification's registration steps give it no effect between source
selection and the visualizer update, so it leaves the object as it is. -/
def processKeypoints (m : CloudMatcher Cloud Mat S) (_pointcloud_keypoints _pointcloud : Cloud)
    (_surface_search_method : KdTree Cloud) : CloudMatcher Cloud Mat S := m

/-- Method `registerCloud` (lines 69-114).
`pointcloud_pose_in_out` and `pointcloud_registered_out` are the values of the
two in/out arguments before the call. -/
def registerCloud [Mul Pose] (ext : External Cloud Mat Pose S) (m : CloudMatcher Cloud Mat S)
    (ambient_pointcloud : Cloud) (ambient_pointcloud_search_method : KdTree Cloud)
    (pointcloud_keypoints : Cloud) (pointcloud_pose_in_out : Pose)
    (pointcloud_registered_out : Cloud) (return_aligned_keypoints : Bool) :
    RegisterResult Cloud Mat Pose S :=
  match m.cloud_matcher_ with
  | none =>
    { success := false,
      pointcloud_pose_in_out := pointcloud_pose_in_out,
      pointcloud_registered_out := pointcloud_registered_out,
      matcher := m,
      events := [] }
  | some r =>
    let pointcloud_keypoints_search_method := (KdTree.new).setInputCloud pointcloud_keypoints
    let ev_tree : List (Event Cloud Mat S) := [Event.kdTreeSetInputCloud pointcloud_keypoints]
    let (r, ev_source) : Registration Cloud Mat S × List (Event Cloud Mat S) :=
      if m.match_only_keypoints_ then
        ((r.setSearchMethodSource pointcloud_keypoints_search_method).setInputSource
            pointcloud_keypoints,
         [Event.setSearchMethodSource pointcloud_keypoints_search_method,
          Event.setInputSource pointcloud_keypoints])
      else
        ((r.setSearchMethodSource ambient_pointcloud_search_method).setInputSource
            ambient_pointcloud,
         [Event.setSearchMethodSource ambient_pointcloud_search_method,
          Event.setInputSource ambient_pointcloud])
    let m := { m with cloud_matcher_ := some r }
    let m := m.processKeypoints pointcloud_keypoints ambient_pointcloud
      ambient_pointcloud_search_method
    let (m, ev_visualizer) := m.updateRegistrationVisualizer
    match m.cloud_matcher_ with
    | none =>
      -- not reached: the pointer was checked on entry and is never reset
      { success := false,
        pointcloud_pose_in_out := pointcloud_pose_in_out,
        pointcloud_registered_out := pointcloud_registered_out,
        matcher := m,
        events := ev_tree ++ ev_source ++ ev_visualizer }
    | some r =>
      let ev_align : List (Event Cloud Mat S) := [Event.align r pointcloud_registered_out]
      let (r, pointcloud_registered_out) := r.align ext pointcloud_registered_out
      let m := { m with cloud_matcher_ := some r }
      if r.hasConverged then
        let pose_correction := ext.transformMatrixToTF2 r.getFinalTransformation
        let pointcloud_pose_in_out := pose_correction * pointcloud_pose_in_out
        let pointcloud_registered_out :=
          if return_aligned_keypoints && !m.match_only_keypoints_ then
            ext.transformPointCloud pointcloud_keypoints r.getFinalTransformation
          else if !return_aligned_keypoints && m.match_only_keypoints_ then
            ext.transformPointCloud ambient_pointcloud r.getFinalTransformation
          else
            pointcloud_registered_out
        let ev_publish : List (Event Cloud Mat S) :=
          if m.cloud_publisher_ then [Event.publishPointCloud pointcloud_registered_out] else []
        { success := true,
          pointcloud_pose_in_out := pointcloud_pose_in_out,
          pointcloud_registered_out := pointcloud_registered_out,
          matcher := m,
          events := ev_tree ++ ev_source ++ ev_visualizer ++ ev_align ++ ev_publish }
      else
        { success := false,
          pointcloud_pose_in_out := pointcloud_pose_in_out,
          pointcloud_registered_out := pointcloud_registered_out,
          matcher := m,
          events := ev_tree ++ ev_source ++ ev_visualizer ++ ev_align }

end CloudMatcher

/-! ## Shared cloud objects

The cloud arguments of `registerCloud` are `Ptr&`: two of them may designate the
same object.  Here clouds are objects at addresses of a type `Ptr`, `clouds`
gives the content at each address, and the algorithm, the search indices and the
events hold addresses (the types above, with `Ptr` in place of `Cloud`).
-/

/-- External operations on shared clouds.  `align r clouds output` reads the
clouds that `r` refers to through `clouds`; the cloud of its result is what it
leaves in the object at `output`. -/
structure SharedExternal (Ptr Cloud Mat Pose S : Type) where
  align : Registration Ptr Mat S → (Ptr → Cloud) → Ptr → AlignResult Cloud Mat S
  /-- conversion `laserscan_to_pointcloud::tf_rosmsg_eigen_conversions::transformMatrixToTF2` -/
  transformMatrixToTF2 : Mat → Pose
  /-- function `pcl::transformPointCloud(cloud_in, cloud_out, transform)`, as the value left in `cloud_out` -/
  transformPointCloud : Cloud → Mat → Cloud

/-- Result of `registerCloud` on shared clouds: the returned `bool`, the pose
after the call, the content of every cloud object after the call, the object
after the call and the calls made. -/
structure SharedRegisterResult (Ptr Cloud Mat Pose S : Type) where
  success : Bool
  pointcloud_pose_in_out : Pose
  clouds : Ptr → Cloud
  matcher : CloudMatcher Ptr Mat S
  events : List (Event Ptr Mat S)

namespace Shared

variable {Ptr Cloud Mat Pose S : Type}

/-- Method `cloud_matcher_->align(*output)` on shared clouds: stores the outcome
in the algorithm and writes the cloud into the object at `output`. -/
def align [DecidableEq Ptr] (ext : SharedExternal Ptr Cloud Mat Pose S)
    (r : Registration Ptr Mat S) (clouds : Ptr → Cloud) (output : Ptr) :
    Registration Ptr Mat S × (Ptr → Cloud) :=
  let res := ext.align r clouds output
  ({ r with converged := res.converged,
            final_transformation := res.final_transformation,
            internal := res.internal },
   Function.update clouds output res.output)

/-- Method `registerCloud` (lines 69-114) on shared clouds.  The three cloud
arguments are addresses; `clouds` is the content of the objects before the call. -/
def registerCloud [DecidableEq Ptr] [Mul Pose] (ext : SharedExternal Ptr Cloud Mat Pose S)
    (m : CloudMatcher Ptr Mat S) (clouds : Ptr → Cloud)
    (ambient_pointcloud : Ptr) (ambient_pointcloud_search_method : KdTree Ptr)
    (pointcloud_keypoints : Ptr) (pointcloud_pose_in_out : Pose)
    (pointcloud_registered_out : Ptr) (return_aligned_keypoints : Bool) :
    SharedRegisterResult Ptr Cloud Mat Pose S :=
  match m.cloud_matcher_ with
  | none =>
    { success := false,
      pointcloud_pose_in_out := pointcloud_pose_in_out,
      clouds := clouds,
      matcher := m,
      events := [] }
  | some r =>
    let pointcloud_keypoints_search_method := (KdTree.new).setInputCloud pointcloud_keypoints
    let ev_tree : List (Event Ptr Mat S) := [Event.kdTreeSetInputCloud pointcloud_keypoints]
    let (r, ev_source) : Registration Ptr Mat S × List (Event Ptr Mat S) :=
      if m.match_only_keypoints_ then
        ((r.setSearchMethodSource pointcloud_keypoints_search_method).setInputSource
            pointcloud_keypoints,
         [Event.setSearchMethodSource pointcloud_keypoints_search_method,
          Event.setInputSource pointcloud_keypoints])
      else
        ((r.setSearchMethodSource ambient_pointcloud_search_method).setInputSource
            ambient_pointcloud,
         [Event.setSearchMethodSource ambient_pointcloud_search_method,
          Event.setInputSource ambient_pointcloud])
    let m := { m with cloud_matcher_ := some r }
    let m := m.processKeypoints pointcloud_keypoints ambient_pointcloud
      ambient_pointcloud_search_method
    let (m, ev_visualizer) := m.updateRegistrationVisualizer
    match m.cloud_matcher_ with
    | none =>
      -- not reached: the pointer was checked on entry and is never reset
      { success := false,
        pointcloud_pose_in_out := pointcloud_pose_in_out,
        clouds := clouds,
        matcher := m,
        events := ev_tree ++ ev_source ++ ev_visualizer }
    | some r =>
      let ev_align : List (Event Ptr Mat S) := [Event.align r pointcloud_registered_out]
      let (r, clouds) := align ext r clouds pointcloud_registered_out
      let m := { m with cloud_matcher_ := some r }
      if r.hasConverged then
        let pose_correction := ext.transformMatrixToTF2 r.getFinalTransformation
        let pointcloud_pose_in_out := pose_correction * pointcloud_pose_in_out
        let clouds :=
          if return_aligned_keypoints && !m.match_only_keypoints_ then
            Function.update clouds pointcloud_registered_out
              (ext.transformPointCloud (clouds pointcloud_keypoints) r.getFinalTransformation)
          else if !return_aligned_keypoints && m.match_only_keypoints_ then
            Function.update clouds pointcloud_registered_out
              (ext.transformPointCloud (clouds ambient_pointcloud) r.getFinalTransformation)
          else
            clouds
        let ev_publish : List (Event Ptr Mat S) :=
          if m.cloud_publisher_ then [Event.publishPointCloud pointcloud_registered_out] else []
        { success := true,
          pointcloud_pose_in_out := pointcloud_pose_in_out,
          clouds := clouds,
          matcher := m,
          events := ev_tree ++ ev_source ++ ev_visualizer ++ ev_align ++ ev_publish }
      else
        { success := false,
          pointcloud_pose_in_out := pointcloud_pose_in_out,
          clouds := clouds,
          matcher := m,
          events := ev_tree ++ ev_source ++ ev_visualizer ++ ev_align }

end Shared

/-! ### Reading shared clouds as values

When the algorithm only looks at the content of the clouds it is given, the
functions on shared clouds can be compared with the functions on cloud values
above: `deref` replaces every address by the content of its object. -/

/-- A search index over an address, as an index over the content. -/
def KdTree.deref {Ptr Cloud : Type} (clouds : Ptr → Cloud) (t : KdTree Ptr) : KdTree Cloud :=
  { input_ := t.input_.map clouds }

/-- An algorithm holding addresses, as an algorithm holding the contents. -/
def Registration.deref {Ptr Cloud Mat S : Type} (clouds : Ptr → Cloud)
    (r : Registration Ptr Mat S) : Registration Cloud Mat S :=
  { max_correspondence_distance := r.max_correspondence_distance
    transformation_epsilon := r.transformation_epsilon
    euclidean_fitness_epsilon := r.euclidean_fitness_epsilon
    maximum_iterations := r.maximum_iterations
    ransac_iterations := r.ransac_iterations
    ransac_outlier_rejection_threshold := r.ransac_outlier_rejection_threshold
    input_target := r.input_target.map clouds
    search_method_target := r.search_method_target.map (KdTree.deref clouds)
    search_method_source := r.search_method_source.map (KdTree.deref clouds)
    input_source := r.input_source.map clouds
    visualization_callback := r.visualization_callback
    converged := r.converged
    final_transformation := r.final_transformation
    internal := r.internal }

/-- A matcher on shared clouds, as a matcher on cloud values. -/
def CloudMatcher.deref {Ptr Cloud Mat S : Type} (clouds : Ptr → Cloud)
    (m : CloudMatcher Ptr Mat S) : CloudMatcher Cloud Mat S :=
  { cloud_matcher_ := m.cloud_matcher_.map (Registration.deref clouds)
    cloud_publisher_ := m.cloud_publisher_
    match_only_keypoints_ := m.match_only_keypoints_
    display_cloud_aligment_ := m.display_cloud_aligment_
    number_maximum_displayed_correspondences_ := m.number_maximum_displayed_correspondences_
    registration_visualizer_ := m.registration_visualizer_ }

/-- Collaborators on cloud values, used on shared clouds: `align` is given the
contents of the clouds the algorithm refers to and of the output object. -/
def External.shared {Ptr Cloud Mat Pose S : Type} (ext : External Cloud Mat Pose S) :
    SharedExternal Ptr Cloud Mat Pose S :=
  { align := fun r clouds output => ext.align (r.deref clouds) (clouds output)
    transformMatrixToTF2 := ext.transformMatrixToTF2
    transformPointCloud := ext.transformPointCloud }

/-! ## Sequences of calls -/

/-- One call on a matcher: `registerCloud` with its arguments, or
`updateRegistrationVisualizer`. -/
inductive Call (Cloud Pose : Type) where
  | registerCloud (ambient_pointcloud : Cloud) (ambient_pointcloud_search_method : KdTree Cloud)
      (pointcloud_keypoints : Cloud) (pointcloud_pose_in_out : Pose)
      (pointcloud_registered_out : Cloud) (return_aligned_keypoints : Bool)
  | updateRegistrationVisualizer

/-- Object after one call, with the calls it made on its collaborators. -/
def Call.run {Cloud Mat Pose S : Type} [Mul Pose] (ext : External Cloud Mat Pose S)
    (m : CloudMatcher Cloud Mat S) : Call Cloud Pose → CloudMatcher Cloud Mat S × List (Event Cloud Mat S)
  | Call.registerCloud a s k p o b =>
    let res := m.registerCloud ext a s k p o b
    (res.matcher, res.events)
  | Call.updateRegistrationVisualizer => m.updateRegistrationVisualizer

/-- Object after a sequence of calls, with one event list per call. -/
def runCalls {Cloud Mat Pose S : Type} [Mul Pose] (ext : External Cloud Mat Pose S)
    (m : CloudMatcher Cloud Mat S) :
    List (Call Cloud Pose) → CloudMatcher Cloud Mat S × List (List (Event Cloud Mat S))
  | [] => (m, [])
  | c :: cs =>
    let step := c.run ext m
    let rest := runCalls ext step.1 cs
    (rest.1, step.2 :: rest.2)

/-! ## A small executable instance

One-dimensional clouds, affine maps as transformations and poses, and a toy
algorithm that estimates the translation between the first points of source
and target.  Used to evaluate the definitions on concrete inputs. -/

namespace Example

/-- Affine map `x ↦ a * x + b` on the integers. -/
structure Affine where
  a : Int
  b : Int
deriving DecidableEq

/-- Composition: `(p * q) x = p (q x)`. -/
instance : Mul Affine := ⟨fun p q => { a := p.a * q.a, b := p.a * q.b + p.b }⟩

def Affine.apply (t : Affine) (x : Int) : Int := t.a * x + t.b

/-- Toy collaborators.  `align` first copies the source cloud into the output
buffer; it converges when iterations are allowed and both clouds are non-empty. -/
def translationExternal : External (List Int) Affine Affine Nat where
  align r _output :=
    let source := r.input_source.getD []
    let target := r.input_target.getD []
    if 0 < r.maximum_iterations ∧ source ≠ [] ∧ target ≠ [] then
      let t : Affine := { a := 1, b := target.headD 0 - source.headD 0 }
      { output := source.map t.apply, converged := true,
        final_transformation := t, internal := r.internal + 1 }
    else
      { output := source, converged := false,
        final_transformation := { a := 1, b := 0 }, internal := r.internal + 1 }
  transformMatrixToTF2 t := t
  transformPointCloud cloud t := cloud.map t.apply

/-- An algorithm instance with target cloud `[10, 20, 30]`. -/
def algorithm (maximum_iterations : Int) : Registration (List Int) Affine Nat :=
  { max_correspondence_distance := 1
    transformation_epsilon := 0
    euclidean_fitness_epsilon := 0
    maximum_iterations := maximum_iterations
    ransac_iterations := 0
    ransac_outlier_rejection_threshold := 0
    input_target := some [10, 20, 30]
    search_method_target := some { input_ := some [10, 20, 30] }
    search_method_source := none
    input_source := none
    visualization_callback := false
    converged := false
    final_transformation := { a := 1, b := 0 }
    internal := 0 }

/-- A matcher owning `algorithm maximum_iterations`, with the given flags. -/
def matcher (maximum_iterations : Int) (match_only_keypoints display publisher : Bool) :
    CloudMatcher (List Int) Affine Nat :=
  { cloud_matcher_ := some (algorithm maximum_iterations)
    cloud_publisher_ := publisher
    match_only_keypoints_ := match_only_keypoints
    display_cloud_aligment_ := display
    number_maximum_displayed_correspondences_ := 30
    registration_visualizer_ := none }

/-- Ambient cloud used in the examples. -/
def ambient : List Int := [7, 17, 27]

/-- Keypoints used in the examples. -/
def keypoints : List Int := [7, 27]

/-- Search index over `ambient`. -/
def ambientTree : KdTree (List Int) := { input_ := some ambient }

/-- Pose before the call in the examples. -/
def pose : Affine := { a := 2, b := 3 }

/-- The algorithm of `matcher 5 false true true` after a `registerCloud` on
`ambient`: source set, observed by the visualizer, converged with `x ↦ x + 3`. -/
def convergedAlgorithm : Registration (List Int) Affine Nat :=
  { algorithm 5 with
    search_method_source := some ambientTree
    input_source := some ambient
    visualization_callback := true
    converged := true
    final_transformation := { a := 1, b := 3 }
    internal := 1 }

/-- The algorithm of `matcher 0 false false false` after a `registerCloud` on
`ambient`: source set, not converged. -/
def stalledAlgorithm : Registration (List Int) Affine Nat :=
  { algorithm 0 with
    search_method_source := some ambientTree
    input_source := some ambient
    internal := 1 }

/-- A matcher that already displays: visualizer constructed and registered on
the algorithm. -/
def displayingMatcher : CloudMatcher (List Int) Affine Nat :=
  { cloud_matcher_ := some { algorithm 5 with visualization_callback := true }
    cloud_publisher_ := false
    match_only_keypoints_ := false
    display_cloud_aligment_ := true
    number_maximum_displayed_correspondences_ := 30
    registration_visualizer_ :=
      some { maximum_displayed_correspondences := 30, registration_set := true,
             display_started := true } }

/-- Cloud objects of the shared examples: `ambient` at address 0, `keypoints` at
address 1, the reference cloud `[10, 20, 30]` at address 2, empty elsewhere
(address 3 serves as a separate output buffer). -/
def sharedClouds : Nat → List Int
  | 0 => ambient
  | 1 => keypoints
  | 2 => [10, 20, 30]
  | _ => []

/-- The toy collaborators of `translationExternal`, reading source and target
through their addresses. -/
def sharedExternal : SharedExternal Nat (List Int) Affine Affine Nat where
  align r clouds _output :=
    let source := (r.input_source.map clouds).getD []
    let target := (r.input_target.map clouds).getD []
    if 0 < r.maximum_iterations ∧ source ≠ [] ∧ target ≠ [] then
      let t : Affine := { a := 1, b := target.headD 0 - source.headD 0 }
      { output := source.map t.apply, converged := true,
        final_transformation := t, internal := r.internal + 1 }
    else
      { output := source, converged := false,
        final_transformation := { a := 1, b := 0 }, internal := r.internal + 1 }
  transformMatrixToTF2 t := t
  transformPointCloud cloud t := cloud.map t.apply

/-- A matcher on shared clouds owning an algorithm whose target is the object at
address 2, with 5 iterations allowed. -/
def sharedMatcher (match_only_keypoints : Bool) : CloudMatcher Nat Affine Nat :=
  { cloud_matcher_ :=
      some { max_correspondence_distance := 1
             transformation_epsilon := 0
             euclidean_fitness_epsilon := 0
             maximum_iterations := 5
             ransac_iterations := 0
             ransac_outlier_rejection_threshold := 0
             input_target := some 2
             search_method_target := some { input_ := some 2 }
             search_method_source := none
             input_source := none
             visualization_callback := false
             converged := false
             final_transformation := { a := 1, b := 0 }
             internal := 0 }
    cloud_publisher_ := false
    match_only_keypoints_ := match_only_keypoints
    display_cloud_aligment_ := false
    number_maximum_displayed_correspondences_ := 30
    registration_visualizer_ := none }

/-- The algorithm of `matcher 5 true false false` after a `registerCloud` on
`keypoints`: source is the keypoints with an index over them, converged with
`x ↦ x + 3`. -/
def keypointAlgorithm : Registration (List Int) Affine Nat :=
  { algorithm 5 with
    search_method_source := some { input_ := some keypoints }
    input_source := some keypoints
    converged := true
    final_transformation := { a := 1, b := 3 }
    internal := 1 }

/-- A parameter server holding only `match_only_keypoints` and
`max_number_of_registration_iterations`. -/
def parameters : NodeHandle :=
  { bools := fun name => if name = "match_only_keypoints" then some true else none
    ints := fun name => if name = "max_number_of_registration_iterations" then some 50 else none
    doubles := fun _ => none }

end Example

/-! ## Closed forms used in the proofs -/

namespace CloudMatcher

variable {Cloud Mat Pose S : Type}

/-- Visualizer calls of one `updateRegistrationVisualizer` that constructs. -/
def visualizerStart (m : CloudMatcher Cloud Mat S) : List (Event Cloud Mat S) :=
  [Event.newRegistrationVisualizer,
   Event.setMaximumDisplayedCorrespondences m.number_maximum_displayed_correspondences_,
   Event.setRegistration,
   Event.startDisplay]

/-- The visualizer as `updateRegistrationVisualizer` leaves it after construction. -/
def startedVisualizer (m : CloudMatcher Cloud Mat S) : RegistrationVisualizer :=
  { maximum_displayed_correspondences := m.number_maximum_displayed_correspondences_,
    registration_set := true,
    display_started := true }

/-- The algorithm `r` as `registerCloud` has prepared it when `align` is called. -/
def alignHandle (m : CloudMatcher Cloud Mat S) (r : Registration Cloud Mat S)
    (amb : Cloud) (ambS : KdTree Cloud) (kp : Cloud) : Registration Cloud Mat S :=
  { r with
    search_method_source :=
      some (if m.match_only_keypoints_ then (KdTree.new).setInputCloud kp else ambS),
    input_source := some (if m.match_only_keypoints_ then kp else amb),
    visualization_callback :=
      if m.registration_visualizer_.isNone && m.display_cloud_aligment_ then true
      else r.visualization_callback }

end CloudMatcher

/-! ## Properties -/

namespace CloudMatcher

variable {Cloud Mat Pose S : Type}

/-! ### Closed form of `registerCloud` -/

/-- With an algorithm owned, `registerCloud` selects the source, updates the
visualizer, aligns once on `alignHandle` and branches on the convergence flag. -/
theorem registerCloud_of_some [Mul Pose] (ext : External Cloud Mat Pose S)
    (m : CloudMatcher Cloud Mat S) (amb : Cloud) (ambS : KdTree Cloud) (kp : Cloud)
    (pose : Pose) (out : Cloud) (rak : Bool) (r : Registration Cloud Mat S)
    (h : m.cloud_matcher_ = some r) :
    m.registerCloud ext amb ambS kp pose out rak =
      { success := (ext.align (m.alignHandle r amb ambS kp) out).converged,
        pointcloud_pose_in_out :=
          if (ext.align (m.alignHandle r amb ambS kp) out).converged then
            ext.transformMatrixToTF2
              (ext.align (m.alignHandle r amb ambS kp) out).final_transformation * pose
          else pose,
        pointcloud_registered_out :=
          if (ext.align (m.alignHandle r amb ambS kp) out).converged then
            (if rak && !m.match_only_keypoints_ then
              ext.transformPointCloud kp
                (ext.align (m.alignHandle r amb ambS kp) out).final_transformation
            else if !rak && m.match_only_keypoints_ then
              ext.transformPointCloud amb
                (ext.align (m.alignHandle r amb ambS kp) out).final_transformation
            else (ext.align (m.alignHandle r amb ambS kp) out).output)
          else (ext.align (m.alignHandle r amb ambS kp) out).output,
        matcher :=
          { m with
            cloud_matcher_ := some ((m.alignHandle r amb ambS kp).align ext out).1,
            registration_visualizer_ :=
              if m.registration_visualizer_.isNone && m.display_cloud_aligment_ then
                some m.startedVisualizer
              else m.registration_visualizer_ },
        events :=
          [Event.kdTreeSetInputCloud kp,
           Event.setSearchMethodSource
             (if m.match_only_keypoints_ then (KdTree.new).setInputCloud kp else ambS),
           Event.setInputSource (if m.match_only_keypoints_ then kp else amb)]
          ++ (if m.registration_visualizer_.isNone && m.display_cloud_aligment_ then
                m.visualizerStart else [])
          ++ [Event.align (m.alignHandle r amb ambS kp) out]
          ++ (if (ext.align (m.alignHandle r amb ambS kp) out).converged && m.cloud_publisher_ then
                [Event.publishPointCloud
                  (if rak && !m.match_only_keypoints_ then
                    ext.transformPointCloud kp
                      (ext.align (m.alignHandle r amb ambS kp) out).final_transformation
                  else if !rak && m.match_only_keypoints_ then
                    ext.transformPointCloud amb
                      (ext.align (m.alignHandle r amb ambS kp) out).final_transformation
                  else (ext.align (m.alignHandle r amb ambS kp) out).output)]
              else []) } := by
  rcases m with ⟨cm, pub, mok, disp, n, vis⟩
  simp only at h
  subst h
  cases mok <;> cases disp <;> cases vis <;> cases pub <;>
    cases hc : (ext.align (alignHandle _ r amb ambS kp) out).converged <;>
    simp [alignHandle] at hc <;>
    simp [registerCloud, updateRegistrationVisualizer, processKeypoints, Registration.align,
      Registration.hasConverged, RegistrationVisualizer.setRegistration, alignHandle,
      Registration.setSearchMethodSource, Registration.setInputSource,
      Registration.getFinalTransformation, visualizerStart, startedVisualizer,
      RegistrationVisualizer.new, RegistrationVisualizer.setMaximumDisplayedCorrespondences,
      RegistrationVisualizer.startDisplay, hc]


/-- Without an algorithm, `registerCloud` is the early return of line 77. -/
theorem registerCloud_of_none [Mul Pose] (ext : External Cloud Mat Pose S)
    (m : CloudMatcher Cloud Mat S) (amb : Cloud) (ambS : KdTree Cloud) (kp : Cloud)
    (pose : Pose) (out : Cloud) (rak : Bool) (h : m.cloud_matcher_ = none) :
    m.registerCloud ext amb ambS kp pose out rak =
      { success := false, pointcloud_pose_in_out := pose, pointcloud_registered_out := out,
        matcher := m, events := [] } := by
  simp [registerCloud, h]

/-! ### Claims about `registerCloud` -/

/-- C1: when no registration algorithm is owned (`cloud_matcher_` is null),
`registerCloud` returns false and has no effect: pose and output cloud keep their
values, the matcher is unchanged (so no visualizer is constructed) and no call
is made on any collaborator (so nothing is published). -/
theorem registerCloud_no_algorithm [Mul Pose] (ext : External Cloud Mat Pose S)
    (m : CloudMatcher Cloud Mat S) (amb : Cloud) (ambS : KdTree Cloud) (kp : Cloud)
    (pose : Pose) (out : Cloud) (rak : Bool) (h : m.cloud_matcher_ = none) :
    (m.registerCloud ext amb ambS kp pose out rak).success = false ∧
    (m.registerCloud ext amb ambS kp pose out rak).pointcloud_pose_in_out = pose ∧
    (m.registerCloud ext amb ambS kp pose out rak).pointcloud_registered_out = out ∧
    (m.registerCloud ext amb ambS kp pose out rak).matcher = m ∧
    (m.registerCloud ext amb ambS kp pose out rak).events = [] := by
  rw [registerCloud_of_none ext m amb ambS kp pose out rak h]
  exact ⟨rfl, rfl, rfl, rfl, rfl⟩

/-- C2: when the algorithm owned after the call reports convergence (this
requires that one is owned), `registerCloud` returns true and the pose after the
call is `correction * pose_before`, the correction being the conversion of the
algorithm's final transformation.  The flags `match_only_keypoints_`,
`return_aligned_keypoints` and the publisher are arbitrary. -/
theorem registerCloud_converged_pose [Mul Pose] (ext : External Cloud Mat Pose S)
    (m : CloudMatcher Cloud Mat S) (amb : Cloud) (ambS : KdTree Cloud) (kp : Cloud)
    (pose : Pose) (out : Cloud) (rak : Bool) (r' : Registration Cloud Mat S)
    (hr : (m.registerCloud ext amb ambS kp pose out rak).matcher.cloud_matcher_ = some r')
    (hc : r'.hasConverged = true) :
    (m.registerCloud ext amb ambS kp pose out rak).success = true ∧
    (m.registerCloud ext amb ambS kp pose out rak).pointcloud_pose_in_out
      = ext.transformMatrixToTF2 r'.getFinalTransformation * pose := by
  cases hm : m.cloud_matcher_ with
  | none =>
    rw [registerCloud_of_none ext m amb ambS kp pose out rak hm] at hr
    simp [hm] at hr
  | some r =>
    rw [registerCloud_of_some ext m amb ambS kp pose out rak r hm] at hr ⊢
    simp only [Option.some.injEq] at hr
    subst hr
    simp only [Registration.align, Registration.hasConverged] at hc
    simp [hc, Registration.align, Registration.getFinalTransformation]

/-- C3 (amended): when the algorithm owned after the call reports
non-convergence, `registerCloud` returns false, the pose keeps its value, `align`
has been called exactly once, on the caller's output buffer, and the output
cloud is whatever that call left in the buffer; nothing is published. -/
theorem registerCloud_not_converged [Mul Pose] (ext : External Cloud Mat Pose S)
    (m : CloudMatcher Cloud Mat S) (amb : Cloud) (ambS : KdTree Cloud) (kp : Cloud)
    (pose : Pose) (out : Cloud) (rak : Bool) (r' : Registration Cloud Mat S)
    (hr : (m.registerCloud ext amb ambS kp pose out rak).matcher.cloud_matcher_ = some r')
    (hc : r'.hasConverged = false) :
    (m.registerCloud ext amb ambS kp pose out rak).success = false ∧
    (m.registerCloud ext amb ambS kp pose out rak).pointcloud_pose_in_out = pose ∧
    (∃ ra : Registration Cloud Mat S,
      (m.registerCloud ext amb ambS kp pose out rak).events.filter Event.isAlign
        = [Event.align ra out] ∧
      (m.registerCloud ext amb ambS kp pose out rak).pointcloud_registered_out
        = (ext.align ra out).output) ∧
    (m.registerCloud ext amb ambS kp pose out rak).events.filter Event.isPublish = [] := by
  cases hm : m.cloud_matcher_ with
  | none =>
    rw [registerCloud_of_none ext m amb ambS kp pose out rak hm] at hr
    simp [hm] at hr
  | some r =>
    rw [registerCloud_of_some ext m amb ambS kp pose out rak r hm] at hr ⊢
    simp only [Option.some.injEq] at hr
    subst hr
    simp only [Registration.align, Registration.hasConverged] at hc
    refine ⟨by simp [hc], by simp [hc], ⟨m.alignHandle r amb ambS kp, ?_, by simp [hc]⟩, ?_⟩
    · cases m.registration_visualizer_ <;> cases m.display_cloud_aligment_ <;>
        simp [hc, Event.isAlign, List.filter_cons, visualizerStart]
    · cases m.registration_visualizer_ <;> cases m.display_cloud_aligment_ <;>
        simp [hc, Event.isPublish, List.filter_cons, visualizerStart]


/-- C5: with an algorithm `r` owned, `registerCloud` first builds a search index
over the keypoints (in both modes), then sets the source index and the source
cloud, and calls `align` exactly once.  The algorithm `ra` at that call is `r`
with only the source replaced (and the visualizer callback when a visualizer is
constructed): the keypoints with the fresh index over them when
`match_only_keypoints_` is set, the ambient cloud with the caller's ambient index
otherwise.  It is on `ra` that `align` runs: the returned boolean is the
convergence flag of `align` on `ra`, the algorithm owned after the call is `ra`
with that outcome stored, and wherever the output policy does not replace it
the output cloud is the one `align` on `ra` wrote. -/
theorem registerCloud_source_selection [Mul Pose] (ext : External Cloud Mat Pose S)
    (m : CloudMatcher Cloud Mat S) (amb : Cloud) (ambS : KdTree Cloud) (kp : Cloud)
    (pose : Pose) (out : Cloud) (rak : Bool) (r : Registration Cloud Mat S)
    (h : m.cloud_matcher_ = some r) :
    (m.registerCloud ext amb ambS kp pose out rak).events.head?
      = some (Event.kdTreeSetInputCloud kp) ∧
    ((KdTree.new).setInputCloud kp).input_ = some kp ∧
    (m.registerCloud ext amb ambS kp pose out rak).events.take 3
      = [Event.kdTreeSetInputCloud kp,
         Event.setSearchMethodSource
           (if m.match_only_keypoints_ then (KdTree.new).setInputCloud kp else ambS),
         Event.setInputSource (if m.match_only_keypoints_ then kp else amb)] ∧
    ∃ ra : Registration Cloud Mat S,
      ra = { r with
             search_method_source :=
               some (if m.match_only_keypoints_ then (KdTree.new).setInputCloud kp else ambS),
             input_source := some (if m.match_only_keypoints_ then kp else amb),
             visualization_callback :=
               if m.registration_visualizer_.isNone && m.display_cloud_aligment_ then true
               else r.visualization_callback } ∧
      (m.registerCloud ext amb ambS kp pose out rak).events.filter Event.isAlign
        = [Event.align ra out] ∧
      (m.match_only_keypoints_ = true →
        ra.input_source = some kp ∧
        ra.search_method_source = some ((KdTree.new).setInputCloud kp)) ∧
      (m.match_only_keypoints_ = false →
        ra.input_source = some amb ∧ ra.search_method_source = some ambS) ∧
      (m.registerCloud ext amb ambS kp pose out rak).matcher.cloud_matcher_
        = some { ra with
                 converged := (ext.align ra out).converged,
                 final_transformation := (ext.align ra out).final_transformation,
                 internal := (ext.align ra out).internal } ∧
      (m.registerCloud ext amb ambS kp pose out rak).success = (ext.align ra out).converged ∧
      ((m.registerCloud ext amb ambS kp pose out rak).success = false ∨
          m.match_only_keypoints_ = rak →
        (m.registerCloud ext amb ambS kp pose out rak).pointcloud_registered_out
          = (ext.align ra out).output) := by
  rw [registerCloud_of_some ext m amb ambS kp pose out rak r h]
  refine ⟨rfl, rfl, rfl, m.alignHandle r amb ambS kp, rfl, ?_, ?_, ?_, rfl, rfl, ?_⟩
  · cases m.registration_visualizer_ <;> cases m.display_cloud_aligment_ <;>
      cases m.cloud_publisher_ <;>
      cases (ext.align (m.alignHandle r amb ambS kp) out).converged <;>
      simp [Event.isAlign, List.filter_cons, visualizerStart]
  · intro h1
    simp [alignHandle, h1]
  · intro h1
    simp [alignHandle, h1]
  · intro h1
    cases hc : (ext.align (m.alignHandle r amb ambS kp) out).converged with
    | false => simp
    | true =>
      rcases h1 with h1 | h1
      · simp [hc] at h1
      · cases rak <;> simp [h1]

/-- C8: one `registerCloud` call publishes exactly once when it succeeds and a
publisher is attached, and not at all otherwise; the published cloud is the
registered cloud handed back to the caller.  The call succeeds exactly when an
algorithm is owned and it reports convergence after the call. -/
theorem registerCloud_publishes [Mul Pose] (ext : External Cloud Mat Pose S)
    (m : CloudMatcher Cloud Mat S) (amb : Cloud) (ambS : KdTree Cloud) (kp : Cloud)
    (pose : Pose) (out : Cloud) (rak : Bool) :
    (m.registerCloud ext amb ambS kp pose out rak).events.filter Event.isPublish
      = (if (m.registerCloud ext amb ambS kp pose out rak).success && m.cloud_publisher_ then
          [Event.publishPointCloud
            (m.registerCloud ext amb ambS kp pose out rak).pointcloud_registered_out]
        else []) ∧
    ((m.registerCloud ext amb ambS kp pose out rak).success = true ↔
      m.cloud_matcher_.isSome = true ∧
      ∃ r' : Registration Cloud Mat S,
        (m.registerCloud ext amb ambS kp pose out rak).matcher.cloud_matcher_ = some r' ∧
        r'.hasConverged = true) := by
  cases hm : m.cloud_matcher_ with
  | none =>
    rw [registerCloud_of_none ext m amb ambS kp pose out rak hm]
    simp
  | some r =>
    rw [registerCloud_of_some ext m amb ambS kp pose out rak r hm]
    constructor
    · cases m.registration_visualizer_ <;> cases m.display_cloud_aligment_ <;>
        cases m.cloud_publisher_ <;>
        cases hc : (ext.align (m.alignHandle r amb ambS kp) out).converged <;>
        simp [Event.isPublish, List.filter_cons, visualizerStart]
    · simp [Registration.align, Registration.hasConverged]

/-- C10: two `registerCloud` calls on matchers that agree on
`match_only_keypoints_` and own the same algorithm up to the registration of a
visualizer callback, with the same arguments, return the same boolean, pose and
output cloud whatever their display flag, visualizer and publisher are, provided
the algorithm's result does not depend on a visualizer observing it. -/
theorem registerCloud_diagnostics_independent [Mul Pose] (ext : External Cloud Mat Pose S)
    (m1 m2 : CloudMatcher Cloud Mat S) (amb : Cloud) (ambS : KdTree Cloud) (kp : Cloud)
    (pose : Pose) (out : Cloud) (rak : Bool)
    (hmok : m1.match_only_keypoints_ = m2.match_only_keypoints_)
    (halg : m1.cloud_matcher_.map (fun r => { r with visualization_callback := false })
      = m2.cloud_matcher_.map (fun r => { r with visualization_callback := false }))
    (hext : ∀ (r : Registration Cloud Mat S) (o : Cloud),
      ext.align r o = ext.align { r with visualization_callback := false } o) :
    (m1.registerCloud ext amb ambS kp pose out rak).success
      = (m2.registerCloud ext amb ambS kp pose out rak).success ∧
    (m1.registerCloud ext amb ambS kp pose out rak).pointcloud_pose_in_out
      = (m2.registerCloud ext amb ambS kp pose out rak).pointcloud_pose_in_out ∧
    (m1.registerCloud ext amb ambS kp pose out rak).pointcloud_registered_out
      = (m2.registerCloud ext amb ambS kp pose out rak).pointcloud_registered_out := by
  cases h1 : m1.cloud_matcher_ with
  | none =>
    cases h2 : m2.cloud_matcher_ with
    | none =>
      rw [registerCloud_of_none ext m1 amb ambS kp pose out rak h1,
        registerCloud_of_none ext m2 amb ambS kp pose out rak h2]
      exact ⟨rfl, rfl, rfl⟩
    | some r2 => simp [h1, h2] at halg
  | some r1 =>
    cases h2 : m2.cloud_matcher_ with
    | none => simp [h1, h2] at halg
    | some r2 =>
      have hra : ext.align (m1.alignHandle r1 amb ambS kp) out
          = ext.align (m2.alignHandle r2 amb ambS kp) out := by
        rw [hext (m1.alignHandle r1 amb ambS kp), hext (m2.alignHandle r2 amb ambS kp)]
        simp only [h1, h2, Option.map_some', Option.some.injEq,
          Registration.mk.injEq] at halg
        obtain ⟨e1, e2, e3, e4, e5, e6, e7, e8, -, -, -, e12, e13, e14⟩ := halg
        simp [alignHandle, hmok, e1, e2, e3, e4, e5, e6, e7, e8, e12, e13, e14]
      rw [registerCloud_of_some ext m1 amb ambS kp pose out rak r1 h1,
        registerCloud_of_some ext m2 amb ambS kp pose out rak r2 h2]
      simp [hra, hmok]


/-! ### Configuration and reference setup -/

/-- C6: `setupConfigurationFromParameterServer` always sets the three policy
fields to the stored parameter, or to `false`, `false`, `30` when it is absent.
With an algorithm owned, the algorithm receives exactly the six tuning values,
each the stored parameter or its default `1`, `10⁻⁸`, `10⁻⁶`, `500`, `500`,
`1/20`, through the six setters in source order, and its other settings are
kept.  Without one, no call is made and there is still no algorithm.  The
publisher and the visualizer are not touched; the function is total. -/
theorem setupConfigurationFromParameterServer_values (m : CloudMatcher Cloud Mat S)
    (node_handle private_node_handle : NodeHandle) :
    (m.setupConfigurationFromParameterServer node_handle private_node_handle).1.match_only_keypoints_
      = (private_node_handle.bools "match_only_keypoints").getD false ∧
    (m.setupConfigurationFromParameterServer node_handle private_node_handle).1.display_cloud_aligment_
      = (private_node_handle.bools "display_cloud_aligment").getD false ∧
    (m.setupConfigurationFromParameterServer node_handle
        private_node_handle).1.number_maximum_displayed_correspondences_
      = (private_node_handle.ints "number_maximum_displayed_correspondences").getD 30 ∧
    (m.setupConfigurationFromParameterServer node_handle private_node_handle).1.cloud_publisher_
      = m.cloud_publisher_ ∧
    (m.setupConfigurationFromParameterServer node_handle private_node_handle).1.registration_visualizer_
      = m.registration_visualizer_ ∧
    (m.setupConfigurationFromParameterServer node_handle private_node_handle).1.cloud_matcher_
      = m.cloud_matcher_.map (fun r =>
          { r with
            max_correspondence_distance :=
              (private_node_handle.doubles "max_correspondence_distance").getD 1,
            transformation_epsilon :=
              (private_node_handle.doubles "transformation_epsilon").getD (1 / 100000000),
            euclidean_fitness_epsilon :=
              (private_node_handle.doubles "euclidean_fitness_epsilon").getD (1 / 1000000),
            maximum_iterations :=
              (private_node_handle.ints "max_number_of_registration_iterations").getD 500,
            ransac_iterations :=
              (private_node_handle.ints "max_number_of_ransac_iterations").getD 500,
            ransac_outlier_rejection_threshold :=
              (private_node_handle.doubles "ransac_outlier_rejection_threshold").getD (1 / 20) }) ∧
    (m.setupConfigurationFromParameterServer node_handle private_node_handle).2
      = (if m.cloud_matcher_.isSome then
          [Event.setMaxCorrespondenceDistance
             ((private_node_handle.doubles "max_correspondence_distance").getD 1),
           Event.setTransformationEpsilon
             ((private_node_handle.doubles "transformation_epsilon").getD (1 / 100000000)),
           Event.setEuclideanFitnessEpsilon
             ((private_node_handle.doubles "euclidean_fitness_epsilon").getD (1 / 1000000)),
           Event.setMaximumIterations
             ((private_node_handle.ints "max_number_of_registration_iterations").getD 500),
           Event.setRANSACIterations
             ((private_node_handle.ints "max_number_of_ransac_iterations").getD 500),
           Event.setRANSACOutlierRejectionThreshold
             ((private_node_handle.doubles "ransac_outlier_rejection_threshold").getD (1 / 20))]
        else []) := by
  have e1 : (1.0 : ℚ) = 1 := by norm_num
  have e2 : (1e-8 : ℚ) = 1 / 100000000 := by norm_num
  have e3 : (1e-6 : ℚ) = 1 / 1000000 := by norm_num
  have e4 : (0.05 : ℚ) = 1 / 20 := by norm_num
  cases hm : m.cloud_matcher_ <;>
    simp only [setupConfigurationFromParameterServer, hm, NodeHandle.paramBool,
      NodeHandle.paramInt, NodeHandle.paramDouble, Registration.setMaxCorrespondenceDistance,
      Registration.setTransformationEpsilon, Registration.setEuclideanFitnessEpsilon,
      Registration.setMaximumIterations, Registration.setRANSACIterations,
      Registration.setRANSACOutlierRejectionThreshold, e1, e2, e3, e4] <;>
    simp


/-- C9: with an algorithm owned, `setupReferenceCloud` stores exactly the two
arguments as the algorithm's target cloud and target search index, through
`setInputTarget` then `setSearchMethodTarget`, and keeps every other setting of
the algorithm; without one it makes no call and returns the matcher as it was.
In both cases the policy fields, the publisher and the visualizer are kept. -/
theorem setupReferenceCloud_frame (m : CloudMatcher Cloud Mat S) (reference_cloud : Cloud)
    (search_method : KdTree Cloud) :
    (∀ r : Registration Cloud Mat S, m.cloud_matcher_ = some r →
      (m.setupReferenceCloud reference_cloud search_method).2
        = [Event.setInputTarget reference_cloud, Event.setSearchMethodTarget search_method] ∧
      ∃ r' : Registration Cloud Mat S,
        (m.setupReferenceCloud reference_cloud search_method).1.cloud_matcher_ = some r' ∧
        r'.input_target = some reference_cloud ∧
        r'.search_method_target = some search_method ∧
        r'.input_source = r.input_source ∧
        r'.search_method_source = r.search_method_source ∧
        r'.max_correspondence_distance = r.max_correspondence_distance ∧
        r'.transformation_epsilon = r.transformation_epsilon ∧
        r'.euclidean_fitness_epsilon = r.euclidean_fitness_epsilon ∧
        r'.maximum_iterations = r.maximum_iterations ∧
        r'.ransac_iterations = r.ransac_iterations ∧
        r'.ransac_outlier_rejection_threshold = r.ransac_outlier_rejection_threshold ∧
        r'.visualization_callback = r.visualization_callback ∧
        r'.converged = r.converged ∧
        r'.final_transformation = r.final_transformation ∧
        r'.internal = r.internal) ∧
    (m.cloud_matcher_ = none →
      m.setupReferenceCloud reference_cloud search_method = (m, [])) ∧
    (m.setupReferenceCloud reference_cloud search_method).1.match_only_keypoints_
      = m.match_only_keypoints_ ∧
    (m.setupReferenceCloud reference_cloud search_method).1.display_cloud_aligment_
      = m.display_cloud_aligment_ ∧
    (m.setupReferenceCloud reference_cloud search_method).1.number_maximum_displayed_correspondences_
      = m.number_maximum_displayed_correspondences_ ∧
    (m.setupReferenceCloud reference_cloud search_method).1.cloud_publisher_
      = m.cloud_publisher_ ∧
    (m.setupReferenceCloud reference_cloud search_method).1.registration_visualizer_
      = m.registration_visualizer_ := by
  cases hm : m.cloud_matcher_ <;>
    simp [setupReferenceCloud, hm, Registration.setInputTarget,
      Registration.setSearchMethodTarget]

/-! ### The visualizer over sequences of calls -/

/-- Method `updateRegistrationVisualizer` constructs exactly when an algorithm is
owned, no visualizer exists and display is enabled. -/
theorem updateRegistrationVisualizer_eq (m : CloudMatcher Cloud Mat S) :
    m.updateRegistrationVisualizer =
      (if m.cloud_matcher_.isSome && m.registration_visualizer_.isNone
          && m.display_cloud_aligment_ then
        ({ m with
           registration_visualizer_ := some m.startedVisualizer,
           cloud_matcher_ :=
             m.cloud_matcher_.map (fun r => { r with visualization_callback := true }) },
         m.visualizerStart)
      else (m, [])) := by
  rcases m with ⟨cm, pub, mok, disp, n, vis⟩
  cases cm <;> cases vis <;> cases disp <;>
    simp [updateRegistrationVisualizer, RegistrationVisualizer.setRegistration,
      RegistrationVisualizer.new, RegistrationVisualizer.setMaximumDisplayedCorrespondences,
      RegistrationVisualizer.startDisplay, startedVisualizer, visualizerStart]

/-- Effect of one call on the fields that decide visualizer construction. -/
theorem run_visualizer [Mul Pose] (ext : External Cloud Mat Pose S)
    (m : CloudMatcher Cloud Mat S) (c : Call Cloud Pose) :
    (c.run ext m).1.display_cloud_aligment_ = m.display_cloud_aligment_ ∧
    (c.run ext m).1.number_maximum_displayed_correspondences_
      = m.number_maximum_displayed_correspondences_ ∧
    (c.run ext m).1.cloud_matcher_.isSome = m.cloud_matcher_.isSome ∧
    (c.run ext m).1.registration_visualizer_
      = (if m.cloud_matcher_.isSome && m.registration_visualizer_.isNone
            && m.display_cloud_aligment_ then some m.startedVisualizer
         else m.registration_visualizer_) ∧
    (c.run ext m).2.filter Event.isVisualizer
      = (if m.cloud_matcher_.isSome && m.registration_visualizer_.isNone
            && m.display_cloud_aligment_ then m.visualizerStart
         else []) := by
  cases c with
  | updateRegistrationVisualizer =>
    simp only [Call.run, updateRegistrationVisualizer_eq]
    rcases m with ⟨cm, pub, mok, disp, n, vis⟩
    cases cm <;> cases vis <;> cases disp <;>
      simp [visualizerStart, Event.isVisualizer, List.filter_cons]
  | registerCloud a s k p o b =>
    cases hm : m.cloud_matcher_ with
    | none =>
      simp only [Call.run, registerCloud_of_none ext m a s k p o b hm]
      simp [hm]
    | some r =>
      simp only [Call.run, registerCloud_of_some ext m a s k p o b r hm]
      cases m.registration_visualizer_ <;> cases m.display_cloud_aligment_ <;>
        cases m.cloud_publisher_ <;>
        cases (ext.align (m.alignHandle r a s k) o).converged <;>
        simp [visualizerStart, Event.isVisualizer, List.filter_cons]

/-- Once construction is excluded (a visualizer exists, display is off, or no
algorithm is owned), no call of a sequence touches the visualizer. -/
theorem runCalls_visualizer_settled [Mul Pose] (ext : External Cloud Mat Pose S)
    (cs : List (Call Cloud Pose)) :
    ∀ m : CloudMatcher Cloud Mat S,
      (m.cloud_matcher_.isSome && m.registration_visualizer_.isNone
        && m.display_cloud_aligment_) = false →
      (runCalls ext m cs).1.registration_visualizer_ = m.registration_visualizer_ ∧
      (runCalls ext m cs).2.map (List.filter Event.isVisualizer)
        = List.replicate cs.length [] := by
  induction cs with
  | nil => intro m _; simp [runCalls]
  | cons c cs ih =>
    intro m hm
    obtain ⟨h1, _, h3, h4, h5⟩ := run_visualizer ext m c
    simp only [hm, Bool.false_eq_true, if_false] at h4 h5
    have hstep : ((c.run ext m).1.cloud_matcher_.isSome
        && (c.run ext m).1.registration_visualizer_.isNone
        && (c.run ext m).1.display_cloud_aligment_) = false := by
      rw [h1, h3, h4]; exact hm
    obtain ⟨ih1, ih2⟩ := ih (c.run ext m).1 hstep
    simp only [runCalls, List.map_cons, List.length_cons, List.replicate_succ]
    exact ⟨by rw [ih1, h4], by rw [ih2, h5]⟩

/-- No call of a sequence writes the display flag. -/
theorem runCalls_display [Mul Pose] (ext : External Cloud Mat Pose S)
    (cs : List (Call Cloud Pose)) :
    ∀ m : CloudMatcher Cloud Mat S,
      (runCalls ext m cs).1.display_cloud_aligment_ = m.display_cloud_aligment_ := by
  induction cs with
  | nil => intro m; rfl
  | cons c cs ih =>
    intro m
    simp only [runCalls]
    rw [ih, (run_visualizer ext m c).1]

/-- C7: over a non-empty sequence of `registerCloud` and
`updateRegistrationVisualizer` calls, the display flag being a field that these
calls never write.  Starting without a visualizer: if display is enabled and an
algorithm is owned, the first call constructs the visualizer, sets its cap to the
configured maximum, binds it and starts it, no later call makes any visualizer
call, and the visualizer at the end is the one constructed; if display is
disabled or no algorithm is owned, no call makes any visualizer call and there
is still no visualizer at the end.  Starting with a visualizer, no call makes
any visualizer call and the visualizer is kept.  In every state, a second
`updateRegistrationVisualizer` changes nothing and makes no call. -/
theorem visualizer_constructed_at_most_once [Mul Pose] (ext : External Cloud Mat Pose S)
    (m : CloudMatcher Cloud Mat S) (c : Call Cloud Pose) (cs : List (Call Cloud Pose)) :
    (m.registration_visualizer_ = none → m.display_cloud_aligment_ = true →
      m.cloud_matcher_.isSome = true →
      (runCalls ext m (c :: cs)).2.map (List.filter Event.isVisualizer)
        = [Event.newRegistrationVisualizer,
           Event.setMaximumDisplayedCorrespondences m.number_maximum_displayed_correspondences_,
           Event.setRegistration,
           Event.startDisplay] :: List.replicate cs.length [] ∧
      (runCalls ext m (c :: cs)).1.registration_visualizer_
        = some { maximum_displayed_correspondences := m.number_maximum_displayed_correspondences_,
                 registration_set := true,
                 display_started := true }) ∧
    (m.registration_visualizer_ = none →
      m.display_cloud_aligment_ = false ∨ m.cloud_matcher_ = none →
      (runCalls ext m (c :: cs)).2.map (List.filter Event.isVisualizer)
        = List.replicate (cs.length + 1) [] ∧
      (runCalls ext m (c :: cs)).1.registration_visualizer_ = none) ∧
    (m.registration_visualizer_.isSome = true →
      (runCalls ext m (c :: cs)).2.map (List.filter Event.isVisualizer)
        = List.replicate (cs.length + 1) [] ∧
      (runCalls ext m (c :: cs)).1.registration_visualizer_ = m.registration_visualizer_) ∧
    (runCalls ext m (c :: cs)).1.display_cloud_aligment_ = m.display_cloud_aligment_ ∧
    (m.updateRegistrationVisualizer).1.updateRegistrationVisualizer
      = ((m.updateRegistrationVisualizer).1, []) := by
  refine ⟨?_, ?_, ?_, ?_, ?_⟩
  · intro hv hd hs
    obtain ⟨h1, _, h3, h4, h5⟩ := run_visualizer ext m c
    simp only [hd, hs, hv, Option.isNone_none, Bool.and_self, if_true] at h4 h5
    have hstep : ((c.run ext m).1.cloud_matcher_.isSome
        && (c.run ext m).1.registration_visualizer_.isNone
        && (c.run ext m).1.display_cloud_aligment_) = false := by
      rw [h4]; simp
    obtain ⟨r1, r2⟩ := runCalls_visualizer_settled ext cs (c.run ext m).1 hstep
    simp only [runCalls, List.map_cons]
    exact ⟨by rw [r2, h5]; rfl, by rw [r1, h4]; rfl⟩
  · intro hv hoff
    have hm : (m.cloud_matcher_.isSome && m.registration_visualizer_.isNone
        && m.display_cloud_aligment_) = false := by
      rcases hoff with h | h <;> simp [h]
    obtain ⟨r1, r2⟩ := runCalls_visualizer_settled ext (c :: cs) m hm
    exact ⟨by simpa using r2, by rw [r1, hv]⟩
  · intro hv
    have hm : (m.cloud_matcher_.isSome && m.registration_visualizer_.isNone
        && m.display_cloud_aligment_) = false := by
      cases hvis : m.registration_visualizer_ with
      | none => simp [hvis] at hv
      | some v => simp
    obtain ⟨r1, r2⟩ := runCalls_visualizer_settled ext (c :: cs) m hm
    exact ⟨by simpa using r2, r1⟩
  · exact runCalls_display ext (c :: cs) m
  · rcases m with ⟨cm, pub, mok, disp, n, vis⟩
    cases cm <;> cases vis <;> cases disp <;> simp [updateRegistrationVisualizer_eq]

end CloudMatcher


/-! ### The output policy on shared clouds -/

namespace Shared

variable {Ptr Cloud Mat Pose S : Type}

/-- Without an algorithm, `registerCloud` on shared clouds is the early return of
line 77. -/
theorem registerCloud_shared_of_none [DecidableEq Ptr] [Mul Pose]
    (ext : SharedExternal Ptr Cloud Mat Pose S) (m : CloudMatcher Ptr Mat S)
    (clouds : Ptr → Cloud) (amb : Ptr) (ambS : KdTree Ptr) (kp : Ptr) (pose : Pose)
    (out : Ptr) (rak : Bool) (h : m.cloud_matcher_ = none) :
    registerCloud ext m clouds amb ambS kp pose out rak =
      { success := false, pointcloud_pose_in_out := pose, clouds := clouds,
        matcher := m, events := [] } := by
  simp [registerCloud, h]

/-- With an algorithm owned, `registerCloud` on shared clouds aligns once on
`alignHandle`, writes the result into the object at `out` and, on convergence,
applies the output policy to the objects as they are after that write. -/
theorem registerCloud_shared_of_some [DecidableEq Ptr] [Mul Pose]
    (ext : SharedExternal Ptr Cloud Mat Pose S) (m : CloudMatcher Ptr Mat S)
    (clouds : Ptr → Cloud) (amb : Ptr) (ambS : KdTree Ptr) (kp : Ptr) (pose : Pose)
    (out : Ptr) (rak : Bool) (r : Registration Ptr Mat S)
    (h : m.cloud_matcher_ = some r) :
    registerCloud ext m clouds amb ambS kp pose out rak =
      { success := (ext.align (m.alignHandle r amb ambS kp) clouds out).converged,
        pointcloud_pose_in_out :=
          if (ext.align (m.alignHandle r amb ambS kp) clouds out).converged then
            ext.transformMatrixToTF2
              (ext.align (m.alignHandle r amb ambS kp) clouds out).final_transformation * pose
          else pose,
        clouds :=
          if (ext.align (m.alignHandle r amb ambS kp) clouds out).converged then
            (if rak && !m.match_only_keypoints_ then
              Function.update (align ext (m.alignHandle r amb ambS kp) clouds out).2 out
                (ext.transformPointCloud
                  ((align ext (m.alignHandle r amb ambS kp) clouds out).2 kp)
                  (ext.align (m.alignHandle r amb ambS kp) clouds out).final_transformation)
            else if !rak && m.match_only_keypoints_ then
              Function.update (align ext (m.alignHandle r amb ambS kp) clouds out).2 out
                (ext.transformPointCloud
                  ((align ext (m.alignHandle r amb ambS kp) clouds out).2 amb)
                  (ext.align (m.alignHandle r amb ambS kp) clouds out).final_transformation)
            else (align ext (m.alignHandle r amb ambS kp) clouds out).2)
          else (align ext (m.alignHandle r amb ambS kp) clouds out).2,
        matcher :=
          { m with
            cloud_matcher_ := some (align ext (m.alignHandle r amb ambS kp) clouds out).1,
            registration_visualizer_ :=
              if m.registration_visualizer_.isNone && m.display_cloud_aligment_ then
                some m.startedVisualizer
              else m.registration_visualizer_ },
        events :=
          [Event.kdTreeSetInputCloud kp,
           Event.setSearchMethodSource
             (if m.match_only_keypoints_ then (KdTree.new).setInputCloud kp else ambS),
           Event.setInputSource (if m.match_only_keypoints_ then kp else amb)]
          ++ (if m.registration_visualizer_.isNone && m.display_cloud_aligment_ then
                m.visualizerStart else [])
          ++ [Event.align (m.alignHandle r amb ambS kp) out]
          ++ (if (ext.align (m.alignHandle r amb ambS kp) clouds out).converged
                && m.cloud_publisher_ then
                [Event.publishPointCloud out]
              else []) } := by
  rcases m with ⟨cm, pub, mok, disp, n, vis⟩
  simp only at h
  subst h
  cases mok <;> cases disp <;> cases vis <;> cases pub <;>
    cases hc : (ext.align (CloudMatcher.alignHandle _ r amb ambS kp) clouds out).converged <;>
    simp [CloudMatcher.alignHandle] at hc <;>
    simp [registerCloud, CloudMatcher.updateRegistrationVisualizer,
      CloudMatcher.processKeypoints, align,
      Registration.hasConverged, RegistrationVisualizer.setRegistration,
      CloudMatcher.alignHandle,
      Registration.setSearchMethodSource, Registration.setInputSource,
      Registration.getFinalTransformation, CloudMatcher.visualizerStart,
      CloudMatcher.startedVisualizer,
      RegistrationVisualizer.new, RegistrationVisualizer.setMaximumDisplayedCorrespondences,
      RegistrationVisualizer.startDisplay, hc]

/-- The functions on cloud values are the functions on shared clouds read
through `deref`: boolean and pose always agree, and the emitted cloud agrees
whenever the output object is neither the keypoints nor the ambient object. -/
theorem registerCloud_shared_deref [DecidableEq Ptr] [Mul Pose]
    (ext : External Cloud Mat Pose S) (m : CloudMatcher Ptr Mat S)
    (clouds : Ptr → Cloud) (amb : Ptr) (ambS : KdTree Ptr) (kp : Ptr) (pose : Pose)
    (out : Ptr) (rak : Bool) :
    (registerCloud ext.shared m clouds amb ambS kp pose out rak).success
      = ((m.deref clouds).registerCloud ext (clouds amb) (ambS.deref clouds) (clouds kp)
          pose (clouds out) rak).success ∧
    (registerCloud ext.shared m clouds amb ambS kp pose out rak).pointcloud_pose_in_out
      = ((m.deref clouds).registerCloud ext (clouds amb) (ambS.deref clouds) (clouds kp)
          pose (clouds out) rak).pointcloud_pose_in_out ∧
    (out ≠ kp → out ≠ amb →
      (registerCloud ext.shared m clouds amb ambS kp pose out rak).clouds out
        = ((m.deref clouds).registerCloud ext (clouds amb) (ambS.deref clouds) (clouds kp)
            pose (clouds out) rak).pointcloud_registered_out) := by
  cases hm : m.cloud_matcher_ with
  | none =>
    have hd : (m.deref clouds).cloud_matcher_ = none := by simp [CloudMatcher.deref, hm]
    rw [registerCloud_shared_of_none ext.shared m clouds amb ambS kp pose out rak hm,
      CloudMatcher.registerCloud_of_none ext (m.deref clouds) _ _ _ pose _ rak hd]
    exact ⟨rfl, rfl, fun _ _ => rfl⟩
  | some r =>
    have hd : (m.deref clouds).cloud_matcher_ = some (r.deref clouds) := by
      simp [CloudMatcher.deref, hm]
    have ha : (m.deref clouds).alignHandle (r.deref clouds) (clouds amb)
        (ambS.deref clouds) (clouds kp) = (m.alignHandle r amb ambS kp).deref clouds := by
      cases hk : m.match_only_keypoints_ <;>
        simp [CloudMatcher.alignHandle, CloudMatcher.deref, Registration.deref,
          KdTree.deref, KdTree.new, KdTree.setInputCloud, hk]
    rw [registerCloud_shared_of_some ext.shared m clouds amb ambS kp pose out rak r hm,
      CloudMatcher.registerCloud_of_some ext (m.deref clouds) _ _ _ pose _ rak _ hd, ha]
    refine ⟨rfl, rfl, ?_⟩
    intro h1 h2
    cases hc : (ext.align ((m.alignHandle r amb ambS kp).deref clouds) (clouds out)).converged <;>
      cases rak <;> cases hk : m.match_only_keypoints_ <;>
      simp [External.shared, align, CloudMatcher.deref, Function.update, hk, hc,
        Ne.symm h1, Ne.symm h2]

/-- C4 (amended): on a successful (converged) `registerCloud`, `align` has run
exactly once, writing into the object at `out`; the algorithm owned afterwards
holds the outcome of that run, and no object other than the one at `out` is
changed.  The emitted cloud, the content of `out` after the call, follows the
table.  Ambient matching with aligned keypoints requested: the keypoints, as
they are after `align`, transformed by the final transformation; these are the
caller's keypoints when `out` is a different object, and the cloud `align`
wrote when `out` is the keypoints object.  Keypoint matching without aligned
keypoints requested: the same with the ambient cloud.  Both flags equal: the
cloud `align` wrote. -/
theorem registerCloud_output_policy [DecidableEq Ptr] [Mul Pose]
    (ext : SharedExternal Ptr Cloud Mat Pose S) (m : CloudMatcher Ptr Mat S)
    (clouds : Ptr → Cloud) (amb : Ptr) (ambS : KdTree Ptr) (kp : Ptr) (pose : Pose)
    (out : Ptr) (rak : Bool)
    (hs : (registerCloud ext m clouds amb ambS kp pose out rak).success = true) :
    ∃ ra : Registration Ptr Mat S,
      (registerCloud ext m clouds amb ambS kp pose out rak).events.filter Event.isAlign
        = [Event.align ra out] ∧
      (registerCloud ext m clouds amb ambS kp pose out rak).matcher.cloud_matcher_
        = some { ra with
                 converged := (ext.align ra clouds out).converged,
                 final_transformation := (ext.align ra clouds out).final_transformation,
                 internal := (ext.align ra clouds out).internal } ∧
      (∀ p : Ptr, p ≠ out →
        (registerCloud ext m clouds amb ambS kp pose out rak).clouds p = clouds p) ∧
      (m.match_only_keypoints_ = false → rak = true → out ≠ kp →
        (registerCloud ext m clouds amb ambS kp pose out rak).clouds out
          = ext.transformPointCloud (clouds kp) (ext.align ra clouds out).final_transformation) ∧
      (m.match_only_keypoints_ = false → rak = true → out = kp →
        (registerCloud ext m clouds amb ambS kp pose out rak).clouds out
          = ext.transformPointCloud (ext.align ra clouds out).output
              (ext.align ra clouds out).final_transformation) ∧
      (m.match_only_keypoints_ = true → rak = false → out ≠ amb →
        (registerCloud ext m clouds amb ambS kp pose out rak).clouds out
          = ext.transformPointCloud (clouds amb) (ext.align ra clouds out).final_transformation) ∧
      (m.match_only_keypoints_ = true → rak = false → out = amb →
        (registerCloud ext m clouds amb ambS kp pose out rak).clouds out
          = ext.transformPointCloud (ext.align ra clouds out).output
              (ext.align ra clouds out).final_transformation) ∧
      (m.match_only_keypoints_ = rak →
        (registerCloud ext m clouds amb ambS kp pose out rak).clouds out
          = (ext.align ra clouds out).output) := by
  cases hm : m.cloud_matcher_ with
  | none =>
    rw [registerCloud_shared_of_none ext m clouds amb ambS kp pose out rak hm] at hs
    simp at hs
  | some r =>
    rw [registerCloud_shared_of_some ext m clouds amb ambS kp pose out rak r hm] at hs ⊢
    simp only at hs
    refine ⟨m.alignHandle r amb ambS kp, ?_, rfl, ?_, ?_, ?_, ?_, ?_, ?_⟩
    · cases m.registration_visualizer_ <;> cases m.display_cloud_aligment_ <;>
        cases m.cloud_publisher_ <;>
        simp [hs, Event.isAlign, List.filter_cons, CloudMatcher.visualizerStart]
    · intro p hp
      cases rak <;> cases m.match_only_keypoints_ <;> simp [hs, align, Function.update, hp]
    · intro h1 h2 h3
      simp [hs, h1, h2, align, Function.update, Ne.symm h3]
    · intro h1 h2 h3
      subst h3
      simp [hs, h1, h2, align, Function.update]
    · intro h1 h2 h3
      simp [hs, h1, h2, align, Function.update, Ne.symm h3]
    · intro h1 h2 h3
      subst h3
      simp [hs, h1, h2, align, Function.update]
    · intro h1
      cases rak <;> simp [hs, h1, align, Function.update]

end Shared

/-! ## The claims on the executable instance -/

namespace Example

open CloudMatcher

/-- C1 on an instance: a freshly constructed matcher owns no algorithm, and
`registerCloud` on it fails without any effect. -/
theorem registerCloud_no_algorithm_witness :
    (CloudMatcher.new : CloudMatcher (List Int) Affine Nat).cloud_matcher_ = none ∧
    ((CloudMatcher.new).registerCloud translationExternal ambient ambientTree keypoints
        pose [1, 2] true).success = false ∧
    ((CloudMatcher.new).registerCloud translationExternal ambient ambientTree keypoints
        pose [1, 2] true).pointcloud_pose_in_out = pose ∧
    ((CloudMatcher.new).registerCloud translationExternal ambient ambientTree keypoints
        pose [1, 2] true).pointcloud_registered_out = [1, 2] ∧
    ((CloudMatcher.new).registerCloud translationExternal ambient ambientTree keypoints
        pose [1, 2] true).matcher = CloudMatcher.new ∧
    ((CloudMatcher.new).registerCloud translationExternal ambient ambientTree keypoints
        pose [1, 2] true).events = [] :=
  ⟨rfl, registerCloud_no_algorithm translationExternal CloudMatcher.new ambient ambientTree
    keypoints pose [1, 2] true rfl⟩

/-- C2 on an instance: the toy algorithm converges with correction `x ↦ x + 3`;
the pose `x ↦ 2 x + 3` becomes `x ↦ 2 x + 6`, the correction applied on the
left (on the right it would be `x ↦ 2 x + 9`). -/
theorem registerCloud_converged_pose_witness :
    ((matcher 5 false true true).registerCloud translationExternal ambient ambientTree
        keypoints pose [] true).matcher.cloud_matcher_ = some convergedAlgorithm ∧
    convergedAlgorithm.hasConverged = true ∧
    ((matcher 5 false true true).registerCloud translationExternal ambient ambientTree
        keypoints pose [] true).success = true ∧
    ((matcher 5 false true true).registerCloud translationExternal ambient ambientTree
        keypoints pose [] true).pointcloud_pose_in_out
      = translationExternal.transformMatrixToTF2 convergedAlgorithm.getFinalTransformation
          * pose ∧
    translationExternal.transformMatrixToTF2 convergedAlgorithm.getFinalTransformation * pose
      = { a := 2, b := 6 } ∧
    pose * translationExternal.transformMatrixToTF2 convergedAlgorithm.getFinalTransformation
      = { a := 2, b := 9 } :=
  ⟨rfl, rfl,
    (registerCloud_converged_pose translationExternal (matcher 5 false true true) ambient
      ambientTree keypoints pose [] true convergedAlgorithm rfl rfl).1,
    (registerCloud_converged_pose translationExternal (matcher 5 false true true) ambient
      ambientTree keypoints pose [] true convergedAlgorithm rfl rfl).2,
    by decide, by decide⟩

/-- C3 as stated fails: with `maximum_iterations = 0` the toy algorithm does not
converge, `registerCloud` returns false and keeps the pose, but the output cloud,
empty before the call, holds the copy of the source that `align` wrote. -/
theorem registerCloud_not_converged_output_changed :
    (matcher 0 false false false).cloud_matcher_.isSome = true ∧
    ((matcher 0 false false false).registerCloud translationExternal ambient ambientTree
        keypoints pose [] false).matcher.cloud_matcher_ = some stalledAlgorithm ∧
    stalledAlgorithm.hasConverged = false ∧
    ((matcher 0 false false false).registerCloud translationExternal ambient ambientTree
        keypoints pose [] false).success = false ∧
    ((matcher 0 false false false).registerCloud translationExternal ambient ambientTree
        keypoints pose [] false).pointcloud_pose_in_out = pose ∧
    ((matcher 0 false false false).registerCloud translationExternal ambient ambientTree
        keypoints pose [] false).pointcloud_registered_out = [7, 17, 27] ∧
    ((matcher 0 false false false).registerCloud translationExternal ambient ambientTree
        keypoints pose [] false).pointcloud_registered_out ≠ [] :=
  ⟨rfl, rfl, rfl, rfl, rfl, rfl, by decide⟩

/-- C3 (amended) on the same instance. -/
theorem registerCloud_not_converged_witness :
    ((matcher 0 false false false).registerCloud translationExternal ambient ambientTree
        keypoints pose [] false).matcher.cloud_matcher_ = some stalledAlgorithm ∧
    stalledAlgorithm.hasConverged = false ∧
    ((matcher 0 false false false).registerCloud translationExternal ambient ambientTree
        keypoints pose [] false).success = false ∧
    ((matcher 0 false false false).registerCloud translationExternal ambient ambientTree
        keypoints pose [] false).pointcloud_pose_in_out = pose ∧
    (∃ ra : Registration (List Int) Affine Nat,
      ((matcher 0 false false false).registerCloud translationExternal ambient ambientTree
          keypoints pose [] false).events.filter Event.isAlign = [Event.align ra []] ∧
      ((matcher 0 false false false).registerCloud translationExternal ambient ambientTree
          keypoints pose [] false).pointcloud_registered_out
        = (translationExternal.align ra []).output) ∧
    ((matcher 0 false false false).registerCloud translationExternal ambient ambientTree
        keypoints pose [] false).events.filter Event.isPublish = [] :=
  ⟨rfl, rfl,
    registerCloud_not_converged translationExternal (matcher 0 false false false) ambient
      ambientTree keypoints pose [] false stalledAlgorithm rfl rfl⟩

/-- C4 as stated fails when the output cloud is the very object of the cloud to
transform.  Ambient matching with aligned keypoints requested and `out` the
keypoints object (address 1): `align` overwrites it with the aligned ambient
cloud `[10, 20, 30]`, line 100 transforms that, and `[13, 23, 33]` is emitted
instead of the transformed keypoints `[10, 30]`.  Keypoint matching without
aligned keypoints requested and `out` the ambient object (address 0): `[13, 33]`
is emitted instead of the transformed ambient cloud `[10, 20, 30]`. -/
theorem registerCloud_output_policy_aliased :
    ((Shared.registerCloud sharedExternal (sharedMatcher false) sharedClouds
        0 { input_ := some 0 } 1 pose 1 true).success = true ∧
     (Shared.registerCloud sharedExternal (sharedMatcher false) sharedClouds
        0 { input_ := some 0 } 1 pose 1 true).matcher.cloud_matcher_.map
          Registration.getFinalTransformation = some { a := 1, b := 3 } ∧
     (Shared.registerCloud sharedExternal (sharedMatcher false) sharedClouds
        0 { input_ := some 0 } 1 pose 1 true).clouds 1 = [13, 23, 33] ∧
     sharedExternal.transformPointCloud (sharedClouds 1) { a := 1, b := 3 } = [10, 30] ∧
     (Shared.registerCloud sharedExternal (sharedMatcher false) sharedClouds
        0 { input_ := some 0 } 1 pose 1 true).clouds 1
       ≠ sharedExternal.transformPointCloud (sharedClouds 1) { a := 1, b := 3 }) ∧
    ((Shared.registerCloud sharedExternal (sharedMatcher true) sharedClouds
        0 { input_ := some 0 } 1 pose 0 false).success = true ∧
     (Shared.registerCloud sharedExternal (sharedMatcher true) sharedClouds
        0 { input_ := some 0 } 1 pose 0 false).matcher.cloud_matcher_.map
          Registration.getFinalTransformation = some { a := 1, b := 3 } ∧
     (Shared.registerCloud sharedExternal (sharedMatcher true) sharedClouds
        0 { input_ := some 0 } 1 pose 0 false).clouds 0 = [13, 33] ∧
     sharedExternal.transformPointCloud (sharedClouds 0) { a := 1, b := 3 } = [10, 20, 30] ∧
     (Shared.registerCloud sharedExternal (sharedMatcher true) sharedClouds
        0 { input_ := some 0 } 1 pose 0 false).clouds 0
       ≠ sharedExternal.transformPointCloud (sharedClouds 0) { a := 1, b := 3 }) :=
  ⟨⟨rfl, rfl, rfl, rfl, by decide⟩, ⟨rfl, rfl, rfl, rfl, by decide⟩⟩

/-- C4 (amended) on instances: with a separate output object (address 3) the
transformed keypoints `[10, 30]` are emitted; with the keypoints object as
output, the transform of what `align` wrote. -/
theorem registerCloud_output_policy_witness :
    (Shared.registerCloud sharedExternal (sharedMatcher false) sharedClouds
        0 { input_ := some 0 } 1 pose 3 true).success = true ∧
    (sharedMatcher false).match_only_keypoints_ = false ∧
    (3 : Nat) ≠ 1 ∧
    (∃ ra : Registration Nat Affine Nat,
      (Shared.registerCloud sharedExternal (sharedMatcher false) sharedClouds
          0 { input_ := some 0 } 1 pose 3 true).events.filter Event.isAlign
        = [Event.align ra 3] ∧
      (Shared.registerCloud sharedExternal (sharedMatcher false) sharedClouds
          0 { input_ := some 0 } 1 pose 3 true).clouds 3
        = sharedExternal.transformPointCloud (sharedClouds 1)
            (sharedExternal.align ra sharedClouds 3).final_transformation ∧
      (Shared.registerCloud sharedExternal (sharedMatcher false) sharedClouds
          0 { input_ := some 0 } 1 pose 3 true).clouds 1 = sharedClouds 1) ∧
    (Shared.registerCloud sharedExternal (sharedMatcher false) sharedClouds
        0 { input_ := some 0 } 1 pose 3 true).clouds 3 = [10, 30] ∧
    (Shared.registerCloud sharedExternal (sharedMatcher false) sharedClouds
        0 { input_ := some 0 } 1 pose 1 true).success = true ∧
    (∃ ra : Registration Nat Affine Nat,
      (Shared.registerCloud sharedExternal (sharedMatcher false) sharedClouds
          0 { input_ := some 0 } 1 pose 1 true).events.filter Event.isAlign
        = [Event.align ra 1] ∧
      (Shared.registerCloud sharedExternal (sharedMatcher false) sharedClouds
          0 { input_ := some 0 } 1 pose 1 true).clouds 1
        = sharedExternal.transformPointCloud (sharedExternal.align ra sharedClouds 1).output
            (sharedExternal.align ra sharedClouds 1).final_transformation) :=
  ⟨rfl, rfl, by decide,
    (Shared.registerCloud_output_policy sharedExternal (sharedMatcher false) sharedClouds
      0 { input_ := some 0 } 1 pose 3 true rfl).imp
      (fun _ h => ⟨h.1, h.2.2.2.1 rfl rfl (by decide), h.2.2.1 1 (by decide)⟩),
    rfl, rfl,
    (Shared.registerCloud_output_policy sharedExternal (sharedMatcher false) sharedClouds
      0 { input_ := some 0 } 1 pose 1 true rfl).imp
      (fun _ h => ⟨h.1, h.2.2.2.2.1 rfl rfl rfl⟩)⟩

/-- C5 on an instance: in keypoint mode `align` runs on the keypoints `[7, 27]`
with an index over them; the algorithm owned afterwards has that source and the
outcome of that run, and the emitted cloud is the aligned keypoints `[10, 30]`
(aligning the ambient cloud would give `[10, 20, 30]`). -/
theorem registerCloud_source_selection_witness :
    (matcher 5 true false false).cloud_matcher_ = some (algorithm 5) ∧
    ((matcher 5 true false false).registerCloud translationExternal ambient ambientTree
        keypoints pose [] true).events.take 3
      = [Event.kdTreeSetInputCloud keypoints,
         Event.setSearchMethodSource { input_ := some keypoints },
         Event.setInputSource keypoints] ∧
    (∃ ra : Registration (List Int) Affine Nat,
      ((matcher 5 true false false).registerCloud translationExternal ambient ambientTree
          keypoints pose [] true).events.filter Event.isAlign = [Event.align ra []] ∧
      ra.input_source = some keypoints ∧
      ra.search_method_source = some { input_ := some keypoints } ∧
      ((matcher 5 true false false).registerCloud translationExternal ambient ambientTree
          keypoints pose [] true).success = (translationExternal.align ra []).converged ∧
      ((matcher 5 true false false).registerCloud translationExternal ambient ambientTree
          keypoints pose [] true).pointcloud_registered_out
        = (translationExternal.align ra []).output) ∧
    ((matcher 5 true false false).registerCloud translationExternal ambient ambientTree
        keypoints pose [] true).matcher.cloud_matcher_ = some keypointAlgorithm ∧
    ((matcher 5 true false false).registerCloud translationExternal ambient ambientTree
        keypoints pose [] true).pointcloud_registered_out = [10, 30] :=
  ⟨rfl,
    (registerCloud_source_selection translationExternal (matcher 5 true false false) ambient
      ambientTree keypoints pose [] true (algorithm 5) rfl).2.2.1,
    (registerCloud_source_selection translationExternal (matcher 5 true false false) ambient
      ambientTree keypoints pose [] true (algorithm 5) rfl).2.2.2.imp
      (fun _ h => ⟨h.2.1, (h.2.2.1 rfl).1, (h.2.2.1 rfl).2, h.2.2.2.2.2.1,
        h.2.2.2.2.2.2 (Or.inr rfl)⟩),
    rfl, rfl⟩

/-- C6 on an instance: the server holds `match_only_keypoints = true` and
`max_number_of_registration_iterations = 50` only; every other value is its
default. -/
theorem setupConfigurationFromParameterServer_values_witness :
    ((matcher 5 false true false).setupConfigurationFromParameterServer parameters
        parameters).1.match_only_keypoints_ = true ∧
    ((matcher 5 false true false).setupConfigurationFromParameterServer parameters
        parameters).1.display_cloud_aligment_ = false ∧
    ((matcher 5 false true false).setupConfigurationFromParameterServer parameters
        parameters).1.number_maximum_displayed_correspondences_ = 30 ∧
    ((matcher 5 false true false).setupConfigurationFromParameterServer parameters
        parameters).1.cloud_matcher_
      = some { algorithm 50 with
               max_correspondence_distance := 1,
               transformation_epsilon := 1 / 100000000,
               euclidean_fitness_epsilon := 1 / 1000000,
               ransac_iterations := 500,
               ransac_outlier_rejection_threshold := 1 / 20 } :=
  ⟨(setupConfigurationFromParameterServer_values (matcher 5 false true false) parameters
      parameters).1.trans (by decide),
    (setupConfigurationFromParameterServer_values (matcher 5 false true false) parameters
      parameters).2.1.trans (by decide),
    (setupConfigurationFromParameterServer_values (matcher 5 false true false) parameters
      parameters).2.2.1.trans (by decide),
    (setupConfigurationFromParameterServer_values (matcher 5 false true false) parameters
      parameters).2.2.2.2.2.1.trans (by simp [matcher, algorithm, parameters])⟩

/-- C7 on an instance: with display enabled, a `registerCloud` followed by an
`updateRegistrationVisualizer` constructs the visualizer in the first call only;
with display disabled neither call touches it. -/
theorem visualizer_constructed_at_most_once_witness :
    (matcher 5 false true false).registration_visualizer_ = none ∧
    (matcher 5 false true false).display_cloud_aligment_ = true ∧
    (matcher 5 false true false).cloud_matcher_.isSome = true ∧
    ((runCalls translationExternal (matcher 5 false true false)
        [Call.registerCloud ambient ambientTree keypoints pose [] true,
         Call.updateRegistrationVisualizer]).2.map (List.filter Event.isVisualizer)
      = [[Event.newRegistrationVisualizer, Event.setMaximumDisplayedCorrespondences 30,
          Event.setRegistration, Event.startDisplay], []] ∧
     (runCalls translationExternal (matcher 5 false true false)
        [Call.registerCloud ambient ambientTree keypoints pose [] true,
         Call.updateRegistrationVisualizer]).1.registration_visualizer_
      = some { maximum_displayed_correspondences := 30, registration_set := true,
               display_started := true }) ∧
    (matcher 5 false false false).registration_visualizer_ = none ∧
    ((matcher 5 false false false).display_cloud_aligment_ = false ∨
      (matcher 5 false false false).cloud_matcher_ = none) ∧
    ((runCalls translationExternal (matcher 5 false false false)
        [Call.registerCloud ambient ambientTree keypoints pose [] true,
         Call.updateRegistrationVisualizer]).2.map (List.filter Event.isVisualizer)
      = [[], []] ∧
     (runCalls translationExternal (matcher 5 false false false)
        [Call.registerCloud ambient ambientTree keypoints pose [] true,
         Call.updateRegistrationVisualizer]).1.registration_visualizer_ = none) ∧
    (displayingMatcher).registration_visualizer_.isSome = true ∧
    ((runCalls translationExternal displayingMatcher
        [Call.registerCloud ambient ambientTree keypoints pose [] true,
         Call.updateRegistrationVisualizer]).2.map (List.filter Event.isVisualizer)
      = [[], []] ∧
     (runCalls translationExternal displayingMatcher
        [Call.registerCloud ambient ambientTree keypoints pose [] true,
         Call.updateRegistrationVisualizer]).1.registration_visualizer_
      = displayingMatcher.registration_visualizer_) :=
  ⟨rfl, rfl, rfl,
    (visualizer_constructed_at_most_once translationExternal (matcher 5 false true false)
      (Call.registerCloud ambient ambientTree keypoints pose [] true)
      [Call.updateRegistrationVisualizer]).1 rfl rfl rfl,
    rfl, Or.inl rfl,
    (visualizer_constructed_at_most_once translationExternal (matcher 5 false false false)
      (Call.registerCloud ambient ambientTree keypoints pose [] true)
      [Call.updateRegistrationVisualizer]).2.1 rfl (Or.inl rfl),
    rfl,
    (visualizer_constructed_at_most_once translationExternal displayingMatcher
      (Call.registerCloud ambient ambientTree keypoints pose [] true)
      [Call.updateRegistrationVisualizer]).2.2.1 rfl⟩

/-- C8 on an instance: a converged call with a publisher attached publishes the
emitted cloud `[10, 30]` once. -/
theorem registerCloud_publishes_witness :
    ((matcher 5 false true true).registerCloud translationExternal ambient ambientTree
        keypoints pose [] true).events.filter Event.isPublish
      = [Event.publishPointCloud [10, 30]] :=
  (registerCloud_publishes translationExternal (matcher 5 false true true) ambient ambientTree
    keypoints pose [] true).1.trans rfl

/-- C9 on an instance: with an algorithm the target and its index are stored;
on a fresh matcher nothing happens. -/
theorem setupReferenceCloud_frame_witness :
    (matcher 5 false true false).cloud_matcher_ = some (algorithm 5) ∧
    ((matcher 5 false true false).setupReferenceCloud [1, 2] { input_ := some [1, 2] }).2
      = [Event.setInputTarget ([1, 2] : List Int),
         Event.setSearchMethodTarget { input_ := some [1, 2] }] ∧
    (∃ r' : Registration (List Int) Affine Nat,
      ((matcher 5 false true false).setupReferenceCloud [1, 2]
          { input_ := some [1, 2] }).1.cloud_matcher_ = some r' ∧
      r'.input_target = some [1, 2] ∧
      r'.search_method_target = some { input_ := some [1, 2] } ∧
      r'.input_source = (algorithm 5).input_source) ∧
    (CloudMatcher.new : CloudMatcher (List Int) Affine Nat).cloud_matcher_ = none ∧
    (CloudMatcher.new : CloudMatcher (List Int) Affine Nat).setupReferenceCloud [1, 2]
        { input_ := some [1, 2] } = (CloudMatcher.new, []) :=
  ⟨rfl,
    ((setupReferenceCloud_frame (matcher 5 false true false) [1, 2]
      { input_ := some [1, 2] }).1 (algorithm 5) rfl).1,
    ((setupReferenceCloud_frame (matcher 5 false true false) [1, 2]
      { input_ := some [1, 2] }).1 (algorithm 5) rfl).2.imp
      (fun _ h => ⟨h.1, h.2.1, h.2.2.1, h.2.2.2.1⟩),
    rfl,
    (setupReferenceCloud_frame (CloudMatcher.new : CloudMatcher (List Int) Affine Nat) [1, 2]
      { input_ := some [1, 2] }).2.1 rfl⟩

/-- C10 on an instance: the same algorithm with display and publisher on, and
with both off, gives the same boolean, pose and cloud. -/
theorem registerCloud_diagnostics_independent_witness :
    (matcher 5 false true true).match_only_keypoints_
      = (matcher 5 false false false).match_only_keypoints_ ∧
    (matcher 5 false true true).cloud_matcher_.map
        (fun r => { r with visualization_callback := false })
      = (matcher 5 false false false).cloud_matcher_.map
        (fun r => { r with visualization_callback := false }) ∧
    (∀ (r : Registration (List Int) Affine Nat) (o : List Int),
      translationExternal.align r o
        = translationExternal.align { r with visualization_callback := false } o) ∧
    ((matcher 5 false true true).registerCloud translationExternal ambient ambientTree
        keypoints pose [] true).success
      = ((matcher 5 false false false).registerCloud translationExternal ambient ambientTree
        keypoints pose [] true).success ∧
    ((matcher 5 false true true).registerCloud translationExternal ambient ambientTree
        keypoints pose [] true).pointcloud_pose_in_out
      = ((matcher 5 false false false).registerCloud translationExternal ambient ambientTree
        keypoints pose [] true).pointcloud_pose_in_out ∧
    ((matcher 5 false true true).registerCloud translationExternal ambient ambientTree
        keypoints pose [] true).pointcloud_registered_out
      = ((matcher 5 false false false).registerCloud translationExternal ambient ambientTree
        keypoints pose [] true).pointcloud_registered_out :=
  ⟨rfl, rfl, fun _ _ => rfl,
    registerCloud_diagnostics_independent translationExternal (matcher 5 false true true)
      (matcher 5 false false false) ambient ambientTree keypoints pose [] true rfl rfl
      (fun _ _ => rfl)⟩

end Example

end dynamic_robot_localization
